import Mathlib

set_option maxRecDepth 100000

deriving instance DecidableEq for Except

/-!
Verification development for the Wayland multi-source calendar importer.

This file shallowly embeds the TypeScript sources
`src/lib/scrapers/multiSourceScraper.ts` and `src/lib/services/eventService.ts`
(plus the pieces of `src/lib/db/schema.ts` they use) in Lean and proves or
refutes the frozen specification claims about them.

Modelling conventions, used consistently below:
* JavaScript strings are Lean `String`s; the handful of JS string primitives
  the code uses (`trim`, `toLowerCase`, `startsWith`, `includes`,
  `substring(0, n)`, `padStart`, `parseInt`) are given explicit executable
  models (`jsTrimStr`, `jsToLower`, `jsStartsWith`, ...), defined on the
  character list underneath.
* JS `Date` values in this code are always civil dates at midnight
  (the code calls `setHours(0,0,0,0)` on `new Date()`, builds dates from
  `yyyy-MM-dd` strings, and adds whole multiples of 24h in milliseconds).
  We model them as a year/month/day triple `Ymd`; comparison of `Date`
  timestamps is modelled by `dateLe` (numeric order of the y/m/d encoding,
  which is timestamp order for in-range civil dates), and
  `getTime() + k*24*60*60*1000` is modelled by `addDays · k`.
  Time zones are out of scope: all dates are read as UTC civil dates.
* Reads of the ambient clock (`new Date()`, `toISOString()`) are passed in
  as parameters (`today : Ymd`, `now : String`).
* `async`/`await` plus `Promise.all` over a list of independently caught
  promises is modelled by evaluating the per-source computation
  (as an `Except String _` value) for each list element in list order;
  a rejected promise is an `Except.error`.
* `cheerio` DOM selection is modelled at the level of its results: a fetched
  calendar page is a list of day cells, each carrying the text the selectors
  would extract (day-number text, and for each `<a>`: its text, `href`,
  following text node and parent text).  `fetch` is a parameter returning
  `Except String CalPage` per (year, month); a thrown fetch / HTTP error is
  `Except.error`.
* The Drizzle/SQLite store is modelled as in-memory lists of rows; the
  `db()` connection being `null` is `Option` on the store, and
  `isDatabaseHealthy()` is a Boolean field of the store.
-/

/-! ## JS string primitives -/

/-- Whitespace for JS `trim` (the ASCII cases that occur in this program). -/
def isJsWs (c : Char) : Bool :=
  c = ' ' || c = '\t' || c = '\n' || c = '\r'

/-- Does the character list `s` begin with `pat`?  (JS `startsWith`.) -/
def leadsWith : List Char → List Char → Bool
  | [], _ => true
  | _ :: _, [] => false
  | p :: ps, c :: cs => p = c && leadsWith ps cs

/-- Does the character list `s` contain `pat` as a contiguous run?  (JS `includes`.) -/
def hasSub (pat : List Char) : List Char → Bool
  | [] => leadsWith pat []
  | c :: cs => leadsWith pat (c :: cs) || hasSub pat cs

/-- JS `String.prototype.startsWith`. -/
def jsStartsWith (s pat : String) : Bool :=
  leadsWith pat.toList s.toList

/-- JS `String.prototype.includes`. -/
def hasSubStr (s pat : String) : Bool :=
  hasSub pat.toList s.toList

/-- JS `String.prototype.trim` (ASCII whitespace). -/
def jsTrimStr (s : String) : String :=
  String.mk (((s.toList.dropWhile isJsWs).reverse.dropWhile isJsWs).reverse)

/-- JS `String.prototype.toLowerCase` (ASCII). -/
def jsToLower (s : String) : String :=
  String.mk (s.toList.map Char.toLower)

/-- JS `String.prototype.substring(0, n)` / our truncation. -/
def strTake (s : String) (n : Nat) : String :=
  String.mk (s.toList.take n)

/-- Drop the first `n` characters (used to model `replace` of a known prefix). -/
def strDrop (s : String) (n : Nat) : String :=
  String.mk (s.toList.drop n)

/-- JS `x || y` for strings: `y` when `x` is the empty string. -/
def jsOr (x y : String) : String :=
  if x = "" then y else x

/-- Value of a decimal digit run (most significant first). -/
def digitsVal (cs : List Char) : Nat :=
  cs.foldl (fun acc c => acc * 10 + (c.toNat - '0'.toNat)) 0

/-- Leading decimal-digit run of a character list, if nonempty. -/
def digitsRun (cs : List Char) : Option Nat :=
  let ds := cs.takeWhile Char.isDigit
  if ds.isEmpty then none else some (digitsVal ds)

/-- JS `parseInt(s)` (base 10): skip leading whitespace, optional sign, then
the longest leading digit run; `NaN` (here `none`) when no digits follow. -/
def parseIntJs (s : String) : Option Int :=
  match s.toList.dropWhile isJsWs with
  | '-' :: rest => (digitsRun rest).map (fun n => -(n : Int))
  | '+' :: rest => (digitsRun rest).map (fun n => (n : Int))
  | cs => (digitsRun cs).map (fun n => (n : Int))

/-- Decimal string of a nonnegative integer (JS `Number.prototype.toString`
for the values that occur here). -/
def natStr (n : Nat) : String :=
  String.mk (Nat.toDigits 10 n)

/-- JS `String(n).padStart(2, "0")` for a nonnegative number. -/
def pad2 (n : Int) : String :=
  let s := natStr n.toNat
  if s.length < 2 then "0" ++ s else s

/-- Four-digit year as produced by date-fns `format(d, "yyyy")`. -/
def pad4 (n : Int) : String :=
  let s := natStr n.toNat
  if s.length ≥ 4 then s else String.mk (List.replicate (4 - s.length) '0') ++ s

/-- Minimal model of `JSON.stringify` on a string (escapes backslash and quote;
the strings stored by this program contain neither). -/
def jsonStr (s : String) : String :=
  "\"" ++ String.mk (s.toList.flatMap
    (fun c => if c = '\\' || c = '"' then ['\\', c] else [c])) ++ "\""

/-- Minimal model of `JSON.stringify` on an array of strings. -/
def jsonStrings (l : List String) : String :=
  "[" ++ String.intercalate "," (l.map jsonStr) ++ "]"

/-- JS `Array.prototype.slice(a, b)`. -/
def jsSlice {α : Type} (l : List α) (a b : Nat) : List α :=
  (l.drop a).take (b - a)

/-! ## Civil dates (the JS `Date` values used by the scraper) -/

/-- A civil date (the `Date`-at-midnight values this code manipulates). -/
structure Ymd where
  y : Int
  m : Int
  d : Int
deriving DecidableEq, Repr

/-- Numeric encoding whose order is timestamp order for in-range civil dates. -/
def encYmd (a : Ymd) : Int :=
  a.y * 10000 + a.m * 100 + a.d

/-- Model of JS `Date` comparison (`<=` on timestamps) for civil dates. -/
def dateLe (a b : Ymd) : Bool :=
  encYmd a ≤ encYmd b

/-- Gregorian leap year. -/
def isLeapYear (y : Int) : Bool :=
  (y % 4 = 0 && y % 100 ≠ 0) || y % 400 = 0

/-- Days in a Gregorian month. -/
def daysInMonth (y m : Int) : Int :=
  if m = 2 then (if isLeapYear y then 29 else 28)
  else if m = 4 || m = 6 || m = 9 || m = 11 then 30
  else 31

/-- The calendar day after `a` (defined for valid dates). -/
def nextDay (a : Ymd) : Ymd :=
  if a.d < daysInMonth a.y a.m then ⟨a.y, a.m, a.d + 1⟩
  else if a.m < 12 then ⟨a.y, a.m + 1, 1⟩
  else ⟨a.y + 1, 1, 1⟩

/-- Model of `new Date(d.getTime() + n*24*60*60*1000)` for a midnight date. -/
def addDays (a : Ymd) (n : Nat) : Ymd :=
  nextDay^[n] a

/-- The date is an actual calendar date. -/
def ValidYmd (a : Ymd) : Prop :=
  1 ≤ a.m ∧ a.m ≤ 12 ∧ 1 ≤ a.d ∧ a.d ≤ daysInMonth a.y a.m

instance (a : Ymd) : Decidable (ValidYmd a) := by
  unfold ValidYmd; infer_instance

/-- Model of JS `new Date("yyyy-MM-dd")` applied to the date string the scraper
builds from `(year, month, dayNumber)`: an in-range civil date, or
`none` for Invalid Date (e.g. February 31), for which every `<=`/`>=`
comparison is false. -/
def jsUtcDate (y m d : Int) : Option Ymd :=
  if 1 ≤ m ∧ m ≤ 12 ∧ 1 ≤ d ∧ d ≤ daysInMonth y m then some ⟨y, m, d⟩ else none

/-- Normalise a day-of-month overflow the way JS `Date` does (Feb 31 → Mar 3).
Fuelled: one step moves at most one month, and overflow here is at most 3 days. -/
def rollDay : Nat → Int → Int → Int → Ymd
  | 0, y, m, d => ⟨y, m, d⟩
  | fuel + 1, y, m, d =>
    if d > daysInMonth y m then
      let d' := d - daysInMonth y m
      if m < 12 then rollDay fuel y (m + 1) d'
      else rollDay fuel (y + 1) 1 d'
    else ⟨y, m, d⟩

/-- Model of `currentScrapeDate.setMonth(getMonth()+1)` followed by
`setDate(1)`: JS first normalises the (month+1, same day) combination —
overflowing into yet another month when the day does not exist — and only
then the day is reset to 1. -/
def jsNextMonthFirst (a : Ymd) : Ymd :=
  let afterMonth :=
    if a.m + 1 > 12 then rollDay 2 (a.y + 1) (a.m + 1 - 12) a.d
    else rollDay 2 a.y (a.m + 1) a.d
  ⟨afterMonth.y, afterMonth.m, 1⟩

/-- The `yyyy-MM-dd` string for a civil date (date-fns `format(d, "yyyy-MM-dd")`). -/
def ymdIso (a : Ymd) : String :=
  pad4 a.y ++ "-" ++ pad2 a.m ++ "-" ++ pad2 a.d

/-! ## `MultiSourceScraper.parseTime` and its date-fns dependencies -/

/-- Strict model of date-fns `parse(s, "h:mm a", refDate)` as used by
`parseTime`: the format tokens are `h` (1–2 digits, value 1..12), the literal
`:`, `mm` (1–2 digits, value 0..59), the literal space, and `a` (`am`/`pm`,
case-insensitive — `parseTime` has lowercased its input already); literals
must match exactly and at most trailing whitespace may remain, otherwise the
result is Invalid Date (`none`).  The result is the 24-hour (hour, minute)
pair; date-fns `format(-, "HH:mm")` of it is `fmtHHmm` below, and `format`
applied to an Invalid Date throws, which `parseTime` catches. -/
def dateFnsParseHmmA (s : String) : Option (Int × Int) :=
  let cs := s.toList
  let hs := cs.takeWhile Char.isDigit
  let hs := hs.take 2
  if hs.isEmpty then none else
  let h : Int := digitsVal hs
  match cs.drop hs.length with
  | ':' :: rest =>
    let ms := rest.takeWhile Char.isDigit
    let ms := ms.take 2
    if ms.isEmpty then none else
    let mv : Int := digitsVal ms
    match rest.drop ms.length with
    | ' ' :: rest2 =>
      let afterMeridiem : Option Bool :=
        if leadsWith ['a', 'm'] rest2 then some false
        else if leadsWith ['p', 'm'] rest2 then some true
        else none
      match afterMeridiem with
      | none => none
      | some isPm =>
        if (rest2.drop 2).all isJsWs then
          if 1 ≤ h ∧ h ≤ 12 ∧ 0 ≤ mv ∧ mv ≤ 59 then
            some ((if isPm then h % 12 + 12 else h % 12), mv)
          else none
        else none
    | _ => none
  | _ => none

/-- date-fns `format(t, "HH:mm")`. -/
def fmtHHmm (t : Int × Int) : String :=
  pad2 t.1 ++ ":" ++ pad2 t.2

/-- `MultiSourceScraper.parseTime` (multiSourceScraper.ts lines 443–466).
The branch containing `am`/`pm` goes through date-fns `parse`/`format`;
a parse failure makes `format` throw, which the surrounding try/catch turns
into `undefined` (`none`). -/
def parseTime (timeStr : String) : Option String :=
  let cleaned := jsTrimStr (jsToLower timeStr)
  if hasSubStr cleaned "am" || hasSubStr cleaned "pm" then
    match dateFnsParseHmmA cleaned with
    | some t => some (fmtHHmm t)
    | none => none
  else if cleaned.toList.contains ':' then
    some (strTake cleaned 5)
  else
    match parseIntJs cleaned with
    | some h => if 0 ≤ h ∧ h ≤ 23 then some (pad2 h ++ ":00") else none
    | none => none

/-! ## `MultiSourceScraper.normalizeEventUrl` -/

/-- `MultiSourceScraper.normalizeEventUrl` (multiSourceScraper.ts lines 416–440). -/
def normalizeEventUrl (url : Option String) (baseUrl : String) : Option String :=
  match url with
  | none => none
  | some u0 =>
    if u0 = "" then none
    else
      let url := jsTrimStr u0
      if url = "" || url = "#" || url = "/" || jsStartsWith url "javascript:" then none
      else if jsStartsWith url "http://" || jsStartsWith url "https://" then some url
      else if jsStartsWith url "//" then some ("https:" ++ url)
      else if jsStartsWith url "/" then some (baseUrl ++ url)
      else if jsStartsWith url "mailto:" then some url
      else some (baseUrl ++ "/" ++ url)

/-! ## The time / location regular expressions used on link context text -/

/-- `[ap]` of the time regex, with the `i` flag. -/
def isApChar (c : Char) : Bool :=
  c.toLower = 'a' || c.toLower = 'p'

/-- `m` of the time regex, with the `i` flag. -/
def isMChar (c : Char) : Bool :=
  c.toLower = 'm'

/-- Try `\d{hlen}:\d{2}[ap]m` at the head of `cs`; on success return the
matched characters. -/
def matchTimeColon (cs : List Char) (hlen : Nat) : Option (List Char) :=
  let ds := cs.take hlen
  if ds.length = hlen && ds.all Char.isDigit then
    match cs.drop hlen with
    | ':' :: m1 :: m2 :: ap :: mm :: _ =>
      if m1.isDigit && m2.isDigit && isApChar ap && isMChar mm then
        some (ds ++ [':', m1, m2, ap, mm])
      else none
    | _ => none
  else none

/-- Try `\d{hlen}[ap]m` at the head of `cs`. -/
def matchTimeBare (cs : List Char) (hlen : Nat) : Option (List Char) :=
  let ds := cs.take hlen
  if ds.length = hlen && ds.all Char.isDigit then
    match cs.drop hlen with
    | ap :: mm :: _ =>
      if isApChar ap && isMChar mm then some (ds ++ [ap, mm]) else none
    | _ => none
  else none

/-- The regex `/(\d{1,2}:\d{2}[ap]m|\d{1,2}[ap]m)/i` anchored at the head:
alternatives in order, the `\d{1,2}` greedy (two digits first, then one). -/
def matchTimeAt (cs : List Char) : Option (List Char) :=
  match matchTimeColon cs 2 with
  | some r => some r
  | none =>
    match matchTimeColon cs 1 with
    | some r => some r
    | none =>
      match matchTimeBare cs 2 with
      | some r => some r
      | none => matchTimeBare cs 1

/-- Leftmost match of the time regex (JS `String.prototype.match`, group 1). -/
def firstTimeScan : List Char → Option (List Char)
  | [] => none
  | c :: cs =>
    match matchTimeAt (c :: cs) with
    | some r => some r
    | none => firstTimeScan cs

/-- `linkText.match(/(\d{1,2}:\d{2}[ap]m|\d{1,2}[ap]m)/i)`, group 1. -/
def firstTimeMatch (s : String) : Option String :=
  (firstTimeScan s.toList).map String.mk

/-- `[\w\s]` of the location regex (ASCII word characters and whitespace). -/
def isWordSpace (c : Char) : Bool :=
  c.isAlphanum || c = '_' || isJsWs c

/-- Length of the keyword alternative `(Room|Building|Hall|Center)` matched at
the head of `cs` (case-insensitive, alternatives in regex order). -/
def kwLen (cs : List Char) : Option Nat :=
  let ls := (cs.take 8).map Char.toLower
  if leadsWith ['r', 'o', 'o', 'm'] ls then some 4
  else if leadsWith ['b', 'u', 'i', 'l', 'd', 'i', 'n', 'g'] ls then some 8
  else if leadsWith ['h', 'a', 'l', 'l'] ls then some 4
  else if leadsWith ['c', 'e', 'n', 't', 'e', 'r'] ls then some 6
  else none

/-- Backtracking step for `[\w\s]+(Room|Building|Hall|Center)` anchored at the
head of `cs`: the greedy `[\w\s]+` takes `n` characters, shrinking until the
keyword matches right after. -/
def locTryLen (cs : List Char) : Nat → Option (List Char)
  | 0 => none
  | n + 1 =>
    match kwLen (cs.drop (n + 1)) with
    | some k => some (cs.take (n + 1 + k))
    | none => locTryLen cs n

/-- The location regex anchored at the head of `cs`. -/
def locTryAt (cs : List Char) : Option (List Char) :=
  locTryLen cs (cs.takeWhile isWordSpace).length

/-- Leftmost match of `/([\w\s]+(Room|Building|Hall|Center))/i`, group 1
(which spans the whole match). -/
def locScan : List Char → Option (List Char)
  | [] => none
  | c :: cs =>
    match locTryAt (c :: cs) with
    | some r => some r
    | none => locScan cs

/-- `siblingText.match(/([\w\s]+(Room|Building|Hall|Center))/i)`, group 1. -/
def locationMatch (s : String) : Option String :=
  (locScan s.toList).map String.mk

/-! ## Scraper data model (`EnhancedScrapedEvent` and result records) -/

/-- `EnhancedScrapedEvent` (schema.ts), restricted to the fields the embedded
scrapers and the service conversion actually read or write; `originalId`,
`imageUrl`, `price`, `registrationUrl`, `contactInfo`, `organizerEmail` and
`organizerPhone` are never set by these scrapers and are elided.  `startDate`
is the civil date denoted by the `yyyy-MM-dd` string the scraper builds. -/
structure ScrEvent where
  title : String
  description : Option String := none
  startDate : Ymd
  endDate : Option Ymd := none
  startTime : Option String := none
  endTime : Option String := none
  isAllDay : Bool
  location : Option String := none
  category : Option String := none
  department : Option String := none
  calendarSource : String
  url : Option String := none
  venue : Option String := none
  organizerName : Option String := none
  tags : Option (List String) := none
deriving DecidableEq, Repr

/-- The `metadata` record of `MultiSourceScrapingResult`. -/
structure ScrapeMeta where
  url : String
  scrapedAt : String
  totalEventsFound : Nat
  successfullyParsed : Nat
deriving DecidableEq, Repr

/-- `MultiSourceScrapingResult` (multiSourceScraper.ts lines 5–16).
`CalendarSource` is one of the ten source-name strings of schema.ts. -/
structure MultiSourceScrapingResult where
  source : String
  events : List ScrEvent
  errors : List String
  warnings : List String
  metadata : ScrapeMeta
deriving DecidableEq, Repr

/-- `BulkScrapingResult` (multiSourceScraper.ts lines 18–24). -/
structure BulkScrapingResult where
  results : List MultiSourceScrapingResult
  totalEvents : Nat
  totalSources : Nat
  successfulSources : Nat
  globalErrors : List String
deriving DecidableEq, Repr

/-- One `<a>` element inside a calendar day cell, as the cheerio selectors
see it: its text, `href` attribute, the following text node (where the time
is searched) and the parent element text (where the location is searched). -/
structure LinkEl where
  text : String
  href : Option String
  followingText : String
  parentText : String
deriving DecidableEq, Repr

/-- One day cell of the fetched month page: the day-number text the three
fallback selectors produce, and the event links inside the cell. -/
structure DayCell where
  dayNumberText : String
  links : List LinkEl
deriving DecidableEq, Repr

/-- A fetched month page after cheerio selection. -/
abbrev CalPage := List DayCell

/-! ## `MultiSourceScraper.scrapeWaylandTown` -/

/-- Day-number extraction for a cell (multiSourceScraper.ts lines 182–193):
`parseInt` of the selector text, skipping the cell when it is `NaN`, falsy,
or outside 1..31. -/
def parseDayNumber (cell : DayCell) : Option Int :=
  match parseIntJs cell.dayNumberText with
  | none => none
  | some n => if n < 1 || n > 31 then none else some n

/-- Inline normalisation of the link `href` (multiSourceScraper.ts lines
205–224) followed by the `url: eventUrl || undefined` at line 308.
`url.replace("http://", "https://")` replaces the first occurrence, which is
the prefix here. -/
def linkEventUrl (href : Option String) : Option String :=
  match href with
  | none => none
  | some raw =>
    if raw = "" then none
    else
      let u := jsTrimStr raw
      let u' :=
        if jsStartsWith u "/" then "https://www.wayland.ma.us" ++ u
        else if jsStartsWith u "http://" then "https://" ++ strDrop u 7
        else if !jsStartsWith u "https://" && !jsStartsWith u "mailto:" then
          "https://www.wayland.ma.us/" ++ u
        else u
      if u' = "" then none else some u'

/-- The category/department keyword chain (multiSourceScraper.ts lines
255–288), returning `(category, department)`. -/
def categorize (title : String) : String × String :=
  let t := jsToLower title
  if hasSubStr t "board of assessors" then ("meeting", "assessors")
  else if hasSubStr t "select board" || hasSubStr t "selectmen" then ("meeting", "selectmen")
  else if hasSubStr t "planning" then ("meeting", "planning")
  else if hasSubStr t "school" then ("education", "school")
  else if hasSubStr t "health" then ("meeting", "health")
  else if hasSubStr t "zba" || hasSubStr t "zoning" then ("meeting", "zoning")
  else if hasSubStr t "housing" then ("meeting", "housing")
  else if hasSubStr t "finance" then ("meeting", "finance")
  else if hasSubStr t "recreation" then ("recreation", "recreation")
  else if hasSubStr t "library" then ("education", "library")
  else if hasSubStr t "conservation" then ("meeting", "conservation")
  else if hasSubStr t "cultural" then ("arts", "cultural")
  else ("meeting", "general")

/-- Processing of a single event link within a day cell (multiSourceScraper.ts
lines 196–323): title filters, URL/time/location extraction, categorisation,
then the date-window check against `[today, today + 90 days]` — note the
window is rebuilt from the clock here and does not use the caller-supplied
`dateRange`.  Returns the pushed event, or `none` when the link is skipped. -/
def processEventLink (y m day : Int) (today : Ymd) (l : LinkEl) : Option ScrEvent :=
  let title := jsTrimStr l.text
  if title = "" || title.length < 3 || (parseIntJs title).isSome then none
  else
    let eventUrl := linkEventUrl l.href
    let timeText := (firstTimeMatch l.followingText).getD ""
    let siblingText := jsTrimStr l.parentText
    let locationText :=
      if hasSubStr siblingText "Room" || hasSubStr siblingText "Building" then
        (locationMatch siblingText).getD ""
      else ""
    let cd := categorize title
    match jsUtcDate y m day with
    | none => none
    | some eventDate =>
      if dateLe today eventDate && dateLe eventDate (addDays today 90) then
        some
          { title := title
            description := some (title ++ " - Regular municipal meeting")
            startDate := eventDate
            isAllDay := timeText = ""
            startTime := if timeText ≠ "" then parseTime timeText else none
            location := some (jsOr locationText "Wayland Town Building")
            category := some cd.1
            department := some cd.2
            calendarSource := "wayland-town"
            url := eventUrl
            venue := some (jsOr locationText "Wayland Town Building")
            organizerName := some "Town of Wayland"
            tags := some ["government", "municipal", cd.1, cd.2] }
      else none

/-- Events pushed for one day cell. -/
def processDayCell (y m : Int) (today : Ymd) (cell : DayCell) : List ScrEvent :=
  match parseDayNumber cell with
  | none => []
  | some day => cell.links.filterMap (processEventLink y m day today)

/-- Events pushed for one fetched month page. -/
def processPage (y m : Int) (today : Ymd) (page : CalPage) : List ScrEvent :=
  page.flatMap (processDayCell y m today)

/-- The month-enumeration loop (multiSourceScraper.ts lines 121–140):
starting at the window start, push each not-yet-seen `(year, month)` pair and
advance with `setMonth(getMonth()+1); setDate(1)` while the cursor is at most
the window end.  Fuelled recursion: each step advances by at least one month,
and 4800 months cover every window this program constructs. -/
def monthsToScrapeAux : Nat → Ymd → Ymd → List (Int × Int) → List (Int × Int)
  | 0, _, _, acc => acc
  | fuel + 1, cur, endD, acc =>
    if dateLe cur endD then
      let my := (cur.y, cur.m)
      let acc' := if my ∈ acc then acc else acc ++ [my]
      monthsToScrapeAux fuel (jsNextMonthFirst cur) endD acc'
    else acc

/-- `monthsToScrape` as computed by `scrapeWaylandTown` for window
`[startD, endD]`. -/
def monthsToScrape (startD endD : Ymd) : List (Int × Int) :=
  monthsToScrapeAux 4800 startD endD []

/-- One iteration of the per-month loop (multiSourceScraper.ts lines
145–343): set `metadata.url`, fetch and parse the month page, append the
extracted events, update the cumulative counts, and record a warning when the
fetch fails or when no events have been found so far. -/
def scrapeMonth (today : Ymd) (fetchPage : Int → Int → Except String CalPage)
    (r : MultiSourceScrapingResult) (ym : Int × Int) : MultiSourceScrapingResult :=
  let url := "https://www.wayland.ma.us/calendar/month/" ++ pad4 ym.1 ++ "-" ++ pad2 ym.2
  let r := { r with metadata := { r.metadata with url := url } }
  match fetchPage ym.1 ym.2 with
  | Except.error e =>
    { r with warnings := r.warnings ++
        ["Failed to scrape " ++ pad2 ym.2 ++ "/" ++ pad4 ym.1 ++ ": " ++ e] }
  | Except.ok page =>
    let evs := processPage ym.1 ym.2 today page
    let events' := r.events ++ evs
    let r := { r with
      events := events'
      metadata := { r.metadata with
        totalEventsFound := events'.length
        successfullyParsed := events'.length } }
    if events'.isEmpty then
      { r with warnings := r.warnings ++
          ["No events found with current selectors - calendar structure may have changed"] }
    else r

/-- The fixed fallback sample events (multiSourceScraper.ts lines 356–399),
dated 5, 12 and 19 days from today. -/
def waylandSampleEvents (today : Ymd) : List ScrEvent :=
  [ { title := "Board of Selectmen Meeting"
      description := some "Regular meeting of the Board of Selectmen"
      startDate := addDays today 5
      startTime := some "19:00"
      isAllDay := false
      location := some "Wayland Town Building - Selectmen\x27s Room"
      category := some "meeting"
      department := some "selectmen"
      calendarSource := "wayland-town"
      venue := some "Wayland Town Building"
      organizerName := some "Town of Wayland"
      tags := some ["government", "municipal", "meeting"] },
    { title := "Planning Board Public Hearing"
      description := some "Public hearing on proposed zoning amendments"
      startDate := addDays today 12
      startTime := some "19:30"
      isAllDay := false
      location := some "Wayland Town Building - Planning Board Room"
      category := some "hearing"
      department := some "planning"
      calendarSource := "wayland-town"
      venue := some "Wayland Town Building"
      organizerName := some "Wayland Planning Board"
      tags := some ["government", "planning", "public-hearing"] },
    { title := "Town Finance Committee Meeting"
      description := some "Monthly Finance Committee meeting"
      startDate := addDays today 19
      startTime := some "19:00"
      isAllDay := false
      location := some "Wayland Town Building - Conference Room"
      category := some "meeting"
      department := some "finance"
      calendarSource := "wayland-town"
      venue := some "Wayland Town Building"
      organizerName := some "Wayland Finance Committee"
      tags := some ["government", "finance", "budget"] } ]

/-- The live part of a `scrapeWaylandTown` run: the result record after the
per-month loop, before the sample-event fallback. -/
def waylandLiveResult (today : Ymd) (dateRange : Option (Ymd × Ymd))
    (fetchPage : Int → Int → Except String CalPage) (scrapedAt : String) :
    MultiSourceScrapingResult :=
  let startD := match dateRange with | some dr => dr.1 | none => today
  let endD := match dateRange with | some dr => dr.2 | none => addDays today 90
  let r0 : MultiSourceScrapingResult :=
    { source := "wayland-town", events := [], errors := [], warnings := []
      metadata := { url := "", scrapedAt := scrapedAt
                    totalEventsFound := 0, successfullyParsed := 0 } }
  (monthsToScrape startD endD).foldl (scrapeMonth today fetchPage) r0

/-- `MultiSourceScraper.scrapeWaylandTown` (multiSourceScraper.ts lines
96–413).  `today` models `new Date()` at midnight (the function rebuilds it in
several places within one run), `fetchPage` the per-month `fetch` + cheerio
load, `scrapedAt` the `toISOString()` stamp.  The outer try/catch is
unreachable in this model: every throwing operation is inside the per-month
try.  When the live loop found nothing, the fixed samples are substituted. -/
def scrapeWaylandTown (today : Ymd) (dateRange : Option (Ymd × Ymd))
    (fetchPage : Int → Int → Except String CalPage) (scrapedAt : String) :
    MultiSourceScrapingResult :=
  let r := waylandLiveResult today dateRange fetchPage scrapedAt
  if r.events.isEmpty then
    let samples := waylandSampleEvents today
    { r with
      events := r.events ++ samples
      warnings := r.warnings ++ ["No live events found, using sample municipal events"]
      metadata := { r.metadata with
        totalEventsFound := samples.length
        successfullyParsed := samples.length } }
  else r

/-! ## The stub extractors (multiSourceScraper.ts lines 469–552, 717–766) -/

/-- Shared shape of the eight not-yet-implemented extractors: a fixed source
name and URL, no events, and a single "not fully implemented yet" warning. -/
def stubResult (source url warning : String) (scrapedAt : String) :
    MultiSourceScrapingResult :=
  { source := source, events := [], errors := [], warnings := [warning]
    metadata := { url := url, scrapedAt := scrapedAt
                  totalEventsFound := 0, successfullyParsed := 0 } }

/-- `MultiSourceScraper.scrapeTcanEvents` (lines 469–484). -/
def scrapeTcanEvents (scrapedAt : String) : MultiSourceScrapingResult :=
  stubResult "tcan-events" "https://tcan.org/events/"
    "TCAN scraper not fully implemented yet" scrapedAt

/-- `MultiSourceScraper.scrapePatchCommunity` (lines 486–501). -/
def scrapePatchCommunity (scrapedAt : String) : MultiSourceScrapingResult :=
  stubResult "patch-community" "https://patch.com/massachusetts/wayland/calendar"
    "Patch scraper not fully implemented yet" scrapedAt

/-- `MultiSourceScraper.scrapeWaylandHighSchool` (lines 503–518). -/
def scrapeWaylandHighSchool (scrapedAt : String) : MultiSourceScrapingResult :=
  stubResult "wayland-high-school" "https://whs.wayland.k12.ma.us/calendar"
    "Wayland High School scraper not fully implemented yet" scrapedAt

/-- `MultiSourceScraper.scrapeWaylandWcpa` (lines 520–535). -/
def scrapeWaylandWcpa (scrapedAt : String) : MultiSourceScrapingResult :=
  stubResult "wayland-wcpa" "https://waylandwcpa.org/events"
    "Wayland WCPA scraper not fully implemented yet" scrapedAt

/-- `MultiSourceScraper.scrapeTownPlanner` (lines 537–552). -/
def scrapeTownPlanner (scrapedAt : String) : MultiSourceScrapingResult :=
  stubResult "town-planner" "https://www.townplanner.com/wayland/ma/"
    "Town Planner scraper not fully implemented yet" scrapedAt

/-- `MultiSourceScraper.scrapeWaylandHighAthletics` (lines 717–732). -/
def scrapeWaylandHighAthletics (scrapedAt : String) : MultiSourceScrapingResult :=
  stubResult "wayland-high-athletics" "https://arbiterlive.com/School/Calendar/24991"
    "Wayland High Athletics scraper not fully implemented yet" scrapedAt

/-- `MultiSourceScraper.scrapeWaylandMiddleAthletics` (lines 734–749). -/
def scrapeWaylandMiddleAthletics (scrapedAt : String) : MultiSourceScrapingResult :=
  stubResult "wayland-middle-athletics" "https://arbiterlive.com/School/Calendar/24992"
    "Wayland Middle Athletics scraper not fully implemented yet" scrapedAt

/-- `MultiSourceScraper.scrapeWaylandLibrary` (lines 751–766). -/
def scrapeWaylandLibrary (scrapedAt : String) : MultiSourceScrapingResult :=
  stubResult "wayland-library" "https://waylandlibrary.org/events/"
    "Wayland Library scraper not fully implemented yet" scrapedAt

/-! ## `MultiSourceScraper.scrapeMultipleSources` -/

/-- `MultiSourceScraper.scrapeMultipleSources` (multiSourceScraper.ts lines
28–61).  The per-source invocation `scrapeSingleSource(source, options)` —
an awaited promise that may reject — is the parameter `runOne`; its `.catch`
pushes a message naming the source onto `globalErrors` and yields `null`,
and `Promise.all` preserves list order, so `results` is the list of
non-rejected outcomes in source order.  (The rejection messages are pushed in
settlement order in JS; this determinisation keeps source order, which no
claim distinguishes.) -/
def scrapeMultipleSources (sources : List String)
    (runOne : String → Except String MultiSourceScrapingResult) : BulkScrapingResult :=
  let results := sources.filterMap (fun s => (runOne s).toOption)
  let globalErrors := sources.filterMap (fun s =>
    match runOne s with
    | Except.ok _ => none
    | Except.error e => some ("Failed to scrape " ++ s ++ ": " ++ e))
  { results := results
    totalEvents := results.foldl (fun sum r => sum + r.events.length) 0
    totalSources := sources.length
    successfulSources := (results.filter (fun r => r.events.length > 0)).length
    globalErrors := globalErrors }

/-! ## Database rows (schema.ts) and the in-memory store -/

/-- A row of the `events` table, restricted to the columns this development
reads or writes; `sourceId`, `originalId`, `imageUrl`, `price`,
`registrationUrl`, `contactInfo`, `organizerEmail`, `organizerPhone` and
`lastVerified` are never consulted by the modelled operations and are
elided. -/
structure EventRow where
  id : Int
  title : String
  description : Option String
  startDate : String
  endDate : Option String
  startTime : Option String
  endTime : Option String
  isAllDay : Bool
  location : Option String
  category : Option String
  department : Option String
  calendarSource : String
  url : Option String
  tags : Option String
  venue : Option String
  organizerName : Option String
  importedAt : String
  updatedAt : String
  verificationStatus : Option String
deriving DecidableEq, Repr

/-- The `NewEvent` insert payload.  For nullable value columns
(`description`, `startTime`, ...) `none` is SQL NULL — the service always
passes these keys, with `x || null`.  For the not-null-with-default columns
`calendarSource` and `verificationStatus`, `none` models the key being
omitted, so the column default applies on insert and the column is left
unchanged on update. -/
structure NewEvent where
  title : String
  description : Option String := none
  startDate : String
  endDate : Option String := none
  startTime : Option String := none
  endTime : Option String := none
  isAllDay : Bool := false
  location : Option String := none
  category : Option String := none
  department : Option String := none
  calendarSource : Option String := none
  url : Option String := none
  tags : Option String := none
  venue : Option String := none
  organizerName : Option String := none
  importedAt : String
  updatedAt : String
  verificationStatus : Option String := none
deriving DecidableEq, Repr

/-- A row of the `calendar_sources` table. -/
structure SourceRow where
  id : String
  name : String
  displayName : String
  url : String
  description : Option String
  isActive : Bool
  lastScraped : Option String
  totalEvents : Int
  successfulImports : Int
  createdAt : String
  updatedAt : String
deriving DecidableEq, Repr

/-- A row of the `import_jobs` table (the `results` JSON blob column is
elided: nothing in the modelled code reads it back). -/
structure JobRow where
  id : Int
  jobType : String
  sources : String
  status : String
  startedAt : Option String
  completedAt : Option String
  totalEvents : Int
  successfulImports : Int
  errors : Option String
  warnings : Option String
  createdAt : String
deriving DecidableEq, Repr

/-- The `NewImportJob` insert payload used by `importFromMultipleSources`. -/
structure NewImportJob where
  jobType : String
  sources : String
  status : String
  startedAt : Option String := none
  createdAt : String
deriving DecidableEq, Repr

/-- The SQLite store behind `db()`: the three tables, plus the
`isDatabaseHealthy()` flag. -/
structure Db where
  events : List EventRow
  sourcesTable : List SourceRow
  jobs : List JobRow
  healthy : Bool
deriving DecidableEq, Repr

/-- `db()` returning `null` is the `none` state. -/
abbrev DbSt := Option Db

/-- A database operation that may throw (models an awaited drizzle call
inside `safeDbOperation`, which itself throws "Database connection not
available" when the connection is gone). -/
abbrev DbAct (α : Type) := DbSt → Except String α × DbSt

/-- `EventService.withDatabaseFallback` (eventService.ts lines 187–211):
return the fallback when the connection is `null`, when the health check
fails, or when the operation throws; exceptions never escape. -/
def withDatabaseFallback {α : Type} (op : DbAct α) (fallback : α) :
    DbSt → α × DbSt := fun st =>
  match st with
  | none => (fallback, none)
  | some dbv =>
    if dbv.healthy then
      match op (some dbv) with
      | (Except.ok a, st') => (a, st')
      | (Except.error _, st') => (fallback, st')
    else (fallback, some dbv)

/-- `FALLBACK_SOURCES` (eventService.ts lines 18–149). -/
def FALLBACK_SOURCES : List SourceRow :=
  [ { id := "wayland-town", name := "wayland-town", displayName := "Town of Wayland"
      url := "https://www.wayland.ma.us/calendar"
      description := some "Official Town of Wayland calendar with municipal meetings and events"
      isActive := true, lastScraped := none, totalEvents := 8, successfulImports := 0
      createdAt := "2025-08-01T12:00:00.000Z", updatedAt := "2025-08-01T12:00:00.000Z" },
    { id := "tcan-events", name := "tcan-events", displayName := "TCAN Events"
      url := "https://tcan.org/events/"
      description := some "The Center for Arts in Natick - concerts, performances, and cultural events"
      isActive := true, lastScraped := none, totalEvents := 12, successfulImports := 0
      createdAt := "2025-08-01T12:00:00.000Z", updatedAt := "2025-08-01T12:00:00.000Z" },
    { id := "wayland-library", name := "wayland-library", displayName := "Wayland Library"
      url := "https://waylandlibrary.org/events/"
      description := some "Wayland Free Public Library programs and events"
      isActive := true, lastScraped := none, totalEvents := 6, successfulImports := 0
      createdAt := "2025-08-01T12:00:00.000Z", updatedAt := "2025-08-01T12:00:00.000Z" },
    { id := "wayland-high-athletics", name := "wayland-high-athletics"
      displayName := "Wayland High Athletics"
      url := "https://arbiterlive.com/School/Calendar/24991"
      description := some "Wayland High School sports and athletics calendar"
      isActive := true, lastScraped := none, totalEvents := 15, successfulImports := 0
      createdAt := "2025-08-01T12:00:00.000Z", updatedAt := "2025-08-01T12:00:00.000Z" },
    { id := "arts-wayland", name := "arts-wayland", displayName := "Arts Wayland"
      url := "https://artswayland.com/pages/calendar"
      description := some "Arts exhibitions, workshops, and cultural programming"
      isActive := true, lastScraped := none, totalEvents := 7, successfulImports := 0
      createdAt := "2025-08-01T12:00:00.000Z", updatedAt := "2025-08-01T12:00:00.000Z" },
    { id := "wayland-wcpa", name := "wayland-wcpa", displayName := "Wayland WCPA"
      url := "https://waylandwcpa.org/events"
      description := some "Wayland Children and Parents Association family events"
      isActive := true, lastScraped := none, totalEvents := 5, successfulImports := 0
      createdAt := "2025-08-01T12:00:00.000Z", updatedAt := "2025-08-01T12:00:00.000Z" },
    { id := "town-planner", name := "town-planner", displayName := "Town Planner"
      url := "https://www.townplanner.com/wayland/ma/"
      description := some "Comprehensive local event listings for Wayland area"
      isActive := true, lastScraped := none, totalEvents := 4, successfulImports := 0
      createdAt := "2025-08-01T12:00:00.000Z", updatedAt := "2025-08-01T12:00:00.000Z" },
    { id := "wayland-high-school", name := "wayland-high-school"
      displayName := "Wayland High School"
      url := "https://whs.wayland.k12.ma.us/calendar"
      description := some "Wayland High School academic and athletic events"
      isActive := true, lastScraped := none, totalEvents := 3, successfulImports := 0
      createdAt := "2025-08-01T12:00:00.000Z", updatedAt := "2025-08-01T12:00:00.000Z" },
    { id := "wayland-middle-athletics", name := "wayland-middle-athletics"
      displayName := "Wayland Middle Athletics"
      url := "https://arbiterlive.com/School/Calendar/24992"
      description := some "Wayland Middle School sports and athletics calendar"
      isActive := true, lastScraped := none, totalEvents := 4, successfulImports := 0
      createdAt := "2025-08-01T12:00:00.000Z", updatedAt := "2025-08-01T12:00:00.000Z" },
    { id := "patch-community", name := "patch-community", displayName := "Patch Community"
      url := "https://patch.com/massachusetts/wayland/calendar"
      description := some "Community events and local happenings from Patch"
      isActive := true, lastScraped := none, totalEvents := 3, successfulImports := 0
      createdAt := "2025-08-01T12:00:00.000Z", updatedAt := "2025-08-01T12:00:00.000Z" } ]

/-- The single populated entry of `FALLBACK_EVENTS` (eventService.ts lines
151–183). -/
def fallbackEvent0 : EventRow :=
  { id := 1
    title := "Board of Selectmen Meeting"
    description := some "Regular meeting of the Board of Selectmen"
    startDate := "2025-08-05T19:00:00.000Z"
    endDate := none
    startTime := some "19:00"
    endTime := none
    isAllDay := false
    location := some "Wayland Town Building - Selectmen\x27s Room"
    category := some "meeting"
    department := some "selectmen"
    calendarSource := "wayland-town"
    url := none
    tags := none
    venue := some "Wayland Town Building"
    organizerName := some "Town of Wayland"
    importedAt := "2025-08-01T12:00:00.000Z"
    updatedAt := "2025-08-01T12:00:00.000Z"
    verificationStatus := some "pending" }

/-- `FALLBACK_EVENTS`. -/
def FALLBACK_EVENTS : List EventRow := [fallbackEvent0]

/-! ## Row-level helpers -/

/-- SQLite rowid allocation for an INTEGER PRIMARY KEY: one more than the
largest id in use. -/
def nextEventId (dbv : Db) : Int :=
  (dbv.events.map EventRow.id).foldl max 0 + 1

/-- Rowid allocation for `import_jobs`. -/
def nextJobId (dbv : Db) : Int :=
  (dbv.jobs.map JobRow.id).foldl max 0 + 1

/-- JS `x || null` on an optional string (the empty string collapses to null). -/
def optOr (o : Option String) : Option String :=
  match o with
  | some s => if s = "" then none else some s
  | none => none

/-- Byte-wise string order (SQLite text comparison; ASCII here). -/
def charListLe : List Char → List Char → Bool
  | [], _ => true
  | _ :: _, [] => false
  | a :: as, b :: bs =>
    if a = b then charListLe as bs else decide (a.toNat < b.toNat)

/-- `s <= t` as SQLite compares text. -/
def strLeB (s t : String) : Bool :=
  charListLe s.toList t.toList

/-- Insertion step of a stable sort. -/
def insertBy {α : Type} (le : α → α → Bool) (a : α) : List α → List α
  | [] => [a]
  | b :: bs => if le a b then a :: b :: bs else b :: insertBy le a bs

/-- Stable insertion sort (models SQL `ORDER BY` over row order). -/
def sortBy {α : Type} (le : α → α → Bool) : List α → List α
  | [] => []
  | a :: as => insertBy le a (sortBy le as)

/-! ## `EventService` operations -/

/-- `EventService.convertEnhancedScrapedEventToNewEvent` (eventService.ts
lines 510–541).  Note the persisted `startDate` string is
`` `${startDate}T${startTime || "00:00"}:00.000Z` ``: the start time of day is
folded into the stored start instant. -/
def convertEnhancedScrapedEventToNewEvent (scraped : ScrEvent) (now : String) : NewEvent :=
  { title := scraped.title
    description := optOr scraped.description
    startDate := ymdIso scraped.startDate ++ "T" ++ jsOr (scraped.startTime.getD "") "00:00" ++ ":00.000Z"
    endDate := match scraped.endDate with
      | some e => some (ymdIso e ++ "T" ++ jsOr (scraped.endTime.getD "") "23:59" ++ ":00.000Z")
      | none => none
    startTime := optOr scraped.startTime
    endTime := optOr scraped.endTime
    isAllDay := scraped.isAllDay
    location := optOr scraped.location
    category := optOr scraped.category
    department := optOr scraped.department
    calendarSource := some scraped.calendarSource
    url := optOr scraped.url
    tags := scraped.tags.map jsonStrings
    venue := optOr scraped.venue
    organizerName := optOr scraped.organizerName
    importedAt := now
    updatedAt := now
    verificationStatus := some "pending" }

/-- The lookup source of `createOrUpdateEvent`:
`eventData.calendarSource || "wayland-town"`. -/
def newEventKeySource (d : NewEvent) : String :=
  match d.calendarSource with
  | some s => if s = "" then "wayland-town" else s
  | none => "wayland-town"

/-- The duplicate-lookup predicate of `createOrUpdateEvent` (eventService.ts
lines 548–559): equality on title, the stored `startDate` string, and
calendar source. -/
def eventMatchesKey (d : NewEvent) (ev : EventRow) : Bool :=
  ev.title = d.title && ev.startDate = d.startDate &&
    ev.calendarSource = newEventKeySource d

/-- `update(events).set({...eventData, updatedAt: now})` applied to a row. -/
def applyEventUpdate (ev : EventRow) (d : NewEvent) (now : String) : EventRow :=
  { id := ev.id
    title := d.title
    description := d.description
    startDate := d.startDate
    endDate := d.endDate
    startTime := d.startTime
    endTime := d.endTime
    isAllDay := d.isAllDay
    location := d.location
    category := d.category
    department := d.department
    calendarSource := (d.calendarSource).getD ev.calendarSource
    url := d.url
    tags := d.tags
    venue := d.venue
    organizerName := d.organizerName
    importedAt := d.importedAt
    updatedAt := now
    verificationStatus := match d.verificationStatus with
      | some s => some s
      | none => ev.verificationStatus }

/-- `insert(events).values(eventData)` as a row, with column defaults for
omitted keys. -/
def insertEventRow (idNew : Int) (d : NewEvent) : EventRow :=
  { id := idNew
    title := d.title
    description := d.description
    startDate := d.startDate
    endDate := d.endDate
    startTime := d.startTime
    endTime := d.endTime
    isAllDay := d.isAllDay
    location := d.location
    category := d.category
    department := d.department
    calendarSource := (d.calendarSource).getD "wayland-town"
    url := d.url
    tags := d.tags
    venue := d.venue
    organizerName := d.organizerName
    importedAt := d.importedAt
    updatedAt := d.updatedAt
    verificationStatus := some ((d.verificationStatus).getD "pending") }

/-- The store transition of `EventService.createOrUpdateEvent` (eventService.ts
lines 544–581) on a live connection: look the key up (`limit(1)`, row order),
update the found row (refreshing `updatedAt`), or insert a fresh row. -/
def createOrUpdateDb (dbv : Db) (d : NewEvent) (now : String) : EventRow × Db :=
  match (dbv.events.filter (eventMatchesKey d)).head? with
  | some existing =>
    (applyEventUpdate existing d now,
     { dbv with events := dbv.events.map (fun ev =>
         if ev.id = existing.id then applyEventUpdate ev d now else ev) })
  | none =>
    let row := insertEventRow (nextEventId dbv) d
    (row, { dbv with events := dbv.events ++ [row] })

/-- `createOrUpdateEvent` as a throwing database action
(`safeDbOperation` throws when the connection is gone). -/
def opCreateOrUpdateEvent (d : NewEvent) (now : String) : DbAct EventRow := fun st =>
  match st with
  | none => (Except.error "Database connection not available", none)
  | some dbv =>
    let p := createOrUpdateDb dbv d now
    (Except.ok p.1, some p.2)

/-- `EventService.createOrUpdateEvent`, fallback-wrapped: never throws, and
returns `FALLBACK_EVENTS[0]` when the store is unusable. -/
def createOrUpdateEvent (d : NewEvent) (now : String) : DbSt → EventRow × DbSt :=
  withDatabaseFallback (opCreateOrUpdateEvent d now) fallbackEvent0

/-- The per-field update record of `EventService.updateCalendarSource`. -/
structure SourceUpdates where
  lastScraped : Option String := none
  totalEvents : Option Int := none
  successfulImports : Option Int := none
deriving DecidableEq, Repr

/-- The throwing body of `EventService.updateCalendarSource` (eventService.ts
lines 364–376): set the given columns plus `updatedAt` on the matching row. -/
def opUpdateCalendarSource (id : String) (u : SourceUpdates) (now : String) :
    DbAct Unit := fun st =>
  match st with
  | none => (Except.error "Database connection not available", none)
  | some dbv =>
    (Except.ok (), some { dbv with sourcesTable := dbv.sourcesTable.map (fun s =>
      if s.id = id then
        { s with
          lastScraped := match u.lastScraped with
            | some v => some v
            | none => s.lastScraped
          totalEvents := (u.totalEvents).getD s.totalEvents
          successfulImports := (u.successfulImports).getD s.successfulImports
          updatedAt := now }
      else s) })

/-- `EventService.updateCalendarSource`, fallback-wrapped (a silent no-op
without a healthy store). -/
def updateCalendarSource (id : String) (u : SourceUpdates) (now : String) :
    DbSt → Unit × DbSt :=
  withDatabaseFallback (opUpdateCalendarSource id u now) ()

/-- The sample event seeded by `EventService.seedSampleEvents` (eventService.ts
lines 283–300). -/
def seedEvent (now : String) : NewEvent :=
  { title := "Town Meeting"
    description := some "Monthly town meeting for municipal business"
    startDate := "2025-08-15T19:00:00.000Z"
    startTime := some "19:00"
    isAllDay := false
    location := some "Wayland Town Building"
    category := some "government"
    department := some "town-clerk"
    calendarSource := some "wayland-town"
    venue := some "Wayland Town Building"
    organizerName := some "Town of Wayland"
    importedAt := now
    updatedAt := now }

/-- Throwing body of `EventService.seedSampleEvents` (lines 271–313): insert
the sample event when the `events` table is still empty. -/
def opSeedSampleEvents (now : String) : DbAct Unit := fun st =>
  match st with
  | none => (Except.error "Database connection not available", none)
  | some dbv =>
    if dbv.events.isEmpty then
      (Except.ok (), some { dbv with
        events := dbv.events ++ [insertEventRow (nextEventId dbv) (seedEvent now)] })
    else (Except.ok (), some dbv)

/-- `EventService.seedSampleEvents`, fallback-wrapped. -/
def seedSampleEvents (now : String) : DbSt → Unit × DbSt :=
  withDatabaseFallback (opSeedSampleEvents now) ()

/-- One `onConflictDoNothing` insert of `initializeCalendarSources`: skip when
a row with the same primary key exists; inserted rows get the column defaults
for `lastScraped`, `totalEvents` and `successfulImports`. -/
def insertSourceIfNew (now : String) (tbl : List SourceRow) (src : SourceRow) :
    List SourceRow :=
  if tbl.any (fun s => s.id = src.id) then tbl
  else tbl ++ [{ id := src.id, name := src.name, displayName := src.displayName
                 url := src.url, description := src.description
                 isActive := src.isActive, lastScraped := none
                 totalEvents := 0, successfulImports := 0
                 createdAt := now, updatedAt := now }]

/-- Throwing body of `EventService.initializeCalendarSources` (lines
232–268): upsert the ten known sources (fresh `createdAt`/`updatedAt`), then
seed the sample events. -/
def opInitializeCalendarSources (now : String) : DbAct Unit := fun st =>
  match st with
  | none => (Except.error "Database connection not available", none)
  | some dbv =>
    let dbv1 := { dbv with
      sourcesTable := FALLBACK_SOURCES.foldl (insertSourceIfNew now) dbv.sourcesTable }
    let p := seedSampleEvents now (some dbv1)
    (Except.ok (), p.2)

/-- `EventService.initializeCalendarSources`, fallback-wrapped. -/
def initializeCalendarSources (now : String) : DbSt → Unit × DbSt :=
  withDatabaseFallback (opInitializeCalendarSources now) ()

/-- Throwing body of `EventService.getCalendarSources` (lines 316–361):
select ordered by display name; when empty, initialise and select again. -/
def opGetCalendarSources (now : String) : DbAct (List SourceRow) := fun st =>
  match st with
  | none => (Except.error "Database connection not available", none)
  | some dbv =>
    let existing := sortBy (fun a b => strLeB a.displayName b.displayName) dbv.sourcesTable
    if existing.isEmpty then
      let p := initializeCalendarSources now (some dbv)
      match p.2 with
      | none => (Except.error "Database connection not available", none)
      | some dbv' =>
        (Except.ok (sortBy (fun a b => strLeB a.displayName b.displayName) dbv'.sourcesTable),
         some dbv')
    else (Except.ok existing, some dbv)

/-- `EventService.getCalendarSources`, fallback-wrapped: `FALLBACK_SOURCES`
without a healthy store. -/
def getCalendarSources (now : String) : DbSt → List SourceRow × DbSt :=
  withDatabaseFallback (opGetCalendarSources now) FALLBACK_SOURCES

/-- The optional filters of `EventService.getAllEvents`. -/
structure EventFilters where
  search : Option String := none
  category : Option String := none
  department : Option String := none
  calendarSource : Option String := none
  startDate : Option String := none
  endDate : Option String := none
deriving DecidableEq, Repr

/-- The accumulated WHERE conditions of `getAllEvents` (each filter key is
added only when truthy). -/
def eventWhere (f : EventFilters) (ev : EventRow) : Bool :=
  (match optOr f.search with
   | some s => hasSubStr ev.title s
   | none => true) &&
  (match optOr f.category with
   | some c => ev.category = some c
   | none => true) &&
  (match optOr f.department with
   | some d => ev.department = some d
   | none => true) &&
  (match optOr f.calendarSource with
   | some c => ev.calendarSource = c
   | none => true) &&
  (match optOr f.startDate with
   | some s => strLeB (s ++ "T00:00:00.000Z") ev.startDate
   | none => true) &&
  (match optOr f.endDate with
   | some e => strLeB ev.startDate (e ++ "T23:59:59.999Z")
   | none => true)

/-- Throwing body of `EventService.getAllEvents` (lines 584–662): initialise
sources, filter, order by `startDate`, paginate, and count. -/
def opGetAllEvents (page limit : Nat) (f : EventFilters) (now : String) :
    DbAct (List EventRow × Nat) := fun st =>
  match st with
  | none => (Except.error "Database connection not available", none)
  | some dbv =>
    let p := initializeCalendarSources now (some dbv)
    match p.2 with
    | none => (Except.error "Database connection not available", none)
    | some dbv' =>
      let offset := (page - 1) * limit
      let matching := dbv'.events.filter (eventWhere f)
      let pageRows := ((sortBy (fun a b => strLeB a.startDate b.startDate) matching).drop
        offset).take limit
      (Except.ok (pageRows, matching.length), some dbv')

/-- `EventService.getAllEvents`, fallback-wrapped: a slice of
`FALLBACK_EVENTS` without a healthy store. -/
def getAllEvents (page limit : Nat) (f : EventFilters) (now : String) :
    DbSt → (List EventRow × Nat) × DbSt :=
  withDatabaseFallback (opGetAllEvents page limit f now)
    (jsSlice FALLBACK_EVENTS ((page - 1) * limit) (page * limit), FALLBACK_EVENTS.length)

/-- Throwing body of `EventService.getImportJobs` (lines 793–806): newest
first, limited. -/
def opGetImportJobs (limit : Nat) : DbAct (List JobRow) := fun st =>
  match st with
  | none => (Except.error "Database connection not available", none)
  | some dbv =>
    (Except.ok ((sortBy (fun a b => strLeB b.createdAt a.createdAt) dbv.jobs).take limit),
     some dbv)

/-- `EventService.getImportJobs`, fallback-wrapped: the empty list without a
healthy store. -/
def getImportJobs (limit : Nat) : DbSt → List JobRow × DbSt :=
  withDatabaseFallback (opGetImportJobs limit) []

/-! ## `EventService.importFromMultipleSources` -/

/-- The progress record passed to the optional callback. -/
structure ImportProgress where
  currentSource : Option String := none
  processed : Nat
  total : Nat
  status : String
  errors : List String
  warnings : List String

/-- A progress callback; a thrown callback exception is `Except.error`. -/
abbrev ProgressCb := ImportProgress → Except String Unit

/-- `progressCallback?.(p)`. -/
def invokeCb (cb : Option ProgressCb) (p : ImportProgress) : Except String Unit :=
  match cb with
  | none => Except.ok ()
  | some f => f p

/-- Insert the new `ImportJob` record, returning its id. -/
def opInsertJob (j : NewImportJob) : DbAct Int := fun st =>
  match st with
  | none => (Except.error "Database connection not available", none)
  | some dbv =>
    let idNew := nextJobId dbv
    (Except.ok idNew, some { dbv with jobs := dbv.jobs ++
      [{ id := idNew, jobType := j.jobType, sources := j.sources, status := j.status
         startedAt := j.startedAt, completedAt := none, totalEvents := 0
         successfulImports := 0, errors := none, warnings := none
         createdAt := j.createdAt }] })

/-- The completion update of the job row (eventService.ts lines 457–475). -/
def opUpdateJobCompleted (jobId : Int) (totalEvents totalImported : Nat)
    (errs warns : List String) (now : String) : DbAct Unit := fun st =>
  match st with
  | none => (Except.error "Database connection not available", none)
  | some dbv =>
    (Except.ok (), some { dbv with jobs := dbv.jobs.map (fun j =>
      if j.id = jobId then
        { j with status := "completed", completedAt := some now
                 totalEvents := (totalEvents : Int)
                 successfulImports := (totalImported : Int)
                 errors := some (jsonStrings errs)
                 warnings := some (jsonStrings warns) }
      else j) })

/-- The failure update of the job row (eventService.ts lines 489–503). -/
def opUpdateJobFailed (jobId : Int) (e : String) (now : String) : DbAct Unit := fun st =>
  match st with
  | none => (Except.error "Database connection not available", none)
  | some dbv =>
    (Except.ok (), some { dbv with jobs := dbv.jobs.map (fun j =>
      if j.id = jobId then
        { j with status := "failed", completedAt := some now
                 errors := some (jsonStrings ["Import failed: " ++ e]) }
      else j) })

/-- The inner per-source event loop (eventService.ts lines 434–443): convert
and upsert each scraped event.  The per-event try/catch is unreachable here:
the conversion is pure and the upsert is fallback-wrapped, so
`totalImported` counts every event. -/
def importEventsOfSource (evs : List ScrEvent) (now : String) (st : DbSt) :
    Nat × DbSt :=
  evs.foldl (fun acc ev =>
    let d := convertEnhancedScrapedEventToNewEvent ev now
    let p := createOrUpdateEvent d now acc.2
    (acc.1 + 1, p.2)) (0, st)

/-- The per-source loop of `importFromMultipleSources` (eventService.ts lines
421–454): report progress (the callback may throw), import the events, fold
the warnings and errors in, and update the source statistics.  Returns the
totals, or the first callback exception. -/
def importLoop (cb : Option ProgressCb) (now : String) (totalLen : Nat) :
    List MultiSourceScrapingResult → Nat → Nat → List String → List String → DbSt →
    Except String (Nat × List String × List String) × DbSt
  | [], _, imported, errs, warns, st => (Except.ok (imported, errs, warns), st)
  | r :: rest, i, imported, errs, warns, st =>
    match invokeCb cb
      { currentSource := some r.source, processed := i + 1, total := totalLen
        status := "Processing " ++ r.source ++ "...", errors := errs, warnings := warns } with
    | Except.error e => (Except.error e, st)
    | Except.ok _ =>
      let p := importEventsOfSource r.events now st
      let warns' := warns ++ r.warnings
      let errs' := errs ++ r.errors
      let q := updateCalendarSource r.source
        { lastScraped := some now, totalEvents := some (r.events.length : Int)
          successfulImports := some (r.events.length : Int) } now p.2
      importLoop cb now totalLen rest (i + 1) (imported + p.1) errs' warns' q.2

/-- `EventService.importFromMultipleSources` (eventService.ts lines 379–507).
`runOne` is the per-source extractor invocation handed to
`scrapeMultipleSources`, `syntheticId` the `Math.floor(Math.random()*1000000)`
fallback job id, `now` the ISO clock stamp.  A callback exception escapes the
try block, marks the job failed, and is rethrown. -/
def importFromMultipleSources (sources : List String) (cb : Option ProgressCb)
    (runOne : String → Except String MultiSourceScrapingResult)
    (syntheticId : Int) (now : String) :
    DbSt → Except String (Int × BulkScrapingResult) × DbSt := fun st0 =>
  let job : NewImportJob :=
    { jobType := "multi-source", sources := jsonStrings sources
      status := "running", startedAt := some now, createdAt := now }
  let p := withDatabaseFallback (opInsertJob job) syntheticId st0
  let jobId := p.1
  let body : Except String (Int × BulkScrapingResult) × DbSt :=
    match invokeCb cb
      { processed := 0, total := sources.length
        status := "Starting multi-source import...", errors := [], warnings := [] } with
    | Except.error e => (Except.error e, p.2)
    | Except.ok _ =>
      let results := scrapeMultipleSources sources runOne
      match importLoop cb now results.results.length results.results 0 0
        results.globalErrors [] p.2 with
      | (Except.error e, st2) => (Except.error e, st2)
      | (Except.ok totals, st2) =>
        let q := withDatabaseFallback
          (opUpdateJobCompleted jobId results.totalEvents totals.1 totals.2.1 totals.2.2 now)
          () st2
        match invokeCb cb
          { processed := sources.length, total := sources.length
            status := "Completed! Imported " ++ natStr totals.1 ++ " events from " ++
              natStr results.successfulSources ++ " sources."
            errors := totals.2.1, warnings := totals.2.2 } with
        | Except.error e => (Except.error e, q.2)
        | Except.ok _ => (Except.ok (jobId, results), q.2)
  match body with
  | (Except.ok v, st') => (Except.ok v, st')
  | (Except.error e, st') =>
    let q := withDatabaseFallback (opUpdateJobFailed jobId e now) () st'
    (Except.error e, q.2)

/-! ## Notions used by the claim statements -/

/-- The logical identity tuple a persisted event row carries:
(title, stored start instant, calendar source). -/
def dbKey (ev : EventRow) : String × String × String :=
  (ev.title, ev.startDate, ev.calendarSource)

/-- The tuple `createOrUpdateEvent` looks an insert payload up by. -/
def newKey (d : NewEvent) : String × String × String :=
  (d.title, d.startDate, newEventKeySource d)

/-- Store sanity: distinct row ids, and at most one row per `dbKey` tuple. -/
def DbInv (dbv : Db) : Prop :=
  (dbv.events.map EventRow.id).Nodup ∧
  dbv.events.Pairwise (fun a b => dbKey a ≠ dbKey b)

/-- The insert payload does not carry the degenerate empty-string source (no
in-repo caller does: the scrapers all set a non-empty `calendarSource`). -/
def okSrc (d : NewEvent) : Prop :=
  d.calendarSource ≠ some ""

/-- One reconciliation step on a live store, as folded over an import run. -/
def applyImport (dbv : Db) (p : NewEvent × String) : Db :=
  (createOrUpdateDb dbv p.1 p.2).2

/-- The storage gateway is absent (`db()` returned `null`) or unhealthy. -/
def dbBroken : DbSt → Prop
  | none => True
  | some dbv => dbv.healthy = false

instance (dbv : Db) : Decidable (DbInv dbv) := by
  unfold DbInv; infer_instance

instance (d : NewEvent) : Decidable (okSrc d) := by
  unfold okSrc; infer_instance

instance (st : DbSt) : Decidable (dbBroken st) := by
  unfold dbBroken
  cases st <;> infer_instance

example : parseTime "19:30" = some "19:30" := by decide
example : parseTime "9" = some "09:00" := by decide
example : parseTime "9:30" = some "9:30" := by decide
example : parseTime "abc" = none := by decide
example : parseTime "7:30pm" = none := by decide
example : parseTime "7:30 pm" = some "19:30" := by decide
example : parseTime "12:05 am" = some "00:05" := by decide
example : normalizeEventUrl (some "/calendar/event/1") "https://example.org"
    = some "https://example.org/calendar/event/1" := by decide
example : normalizeEventUrl (some "#") "https://example.org" = none := by decide
example : normalizeEventUrl (some "http://x.org/a") "https://example.org"
    = some "http://x.org/a" := by decide
example : jsNextMonthFirst ⟨2025, 1, 31⟩ = ⟨2025, 3, 1⟩ := by decide
example : addDays ⟨2025, 6, 1⟩ 90 = ⟨2025, 8, 30⟩ := by decide

/-! # Theorems -/

/-! ## C7 — `parseTime` -/

/-- C7 counterexample: `parseTime` does not behave as the claim states.
An unparsable string (`"abc"`) yields `undefined` (`none`), not the input
unchanged; a `":"`-string is truncated by `substring(0, 5)` without left
padding (`"9:30"` stays `"9:30"`, not `"09:30"`); and `"7:30pm"` fails the
strict date-fns `"h:mm a"` pattern (no space before the meridiem), so the
caught `format` exception yields `none` rather than `"19:30"`. -/
theorem parseTime_claim_cex :
    parseTime "abc" = none ∧
    parseTime "9:30" = some "9:30" ∧
    parseTime "7:30pm" = none := by decide

/-- C7 (amended): strings containing `am`/`pm` are parsed with the strict
date-fns `"h:mm a"` pattern — a space-separated meridiem works
(`"7:30 pm" → "19:30"`, `"7:30 am" → "07:30"`) while the unspaced form yields
no time; `":"`-strings are truncated to their first five characters with no
left padding; a bare integer hour 0–23 becomes zero-padded `"HH:00"`; and an
unparsable string yields `none` (no time), not the unchanged input. -/
theorem parseTime_behavior :
    parseTime "7:30 pm" = some "19:30" ∧
    parseTime "7:30 am" = some "07:30" ∧
    parseTime "7:30pm" = none ∧
    parseTime "19:30" = some "19:30" ∧
    parseTime "9:30" = some "9:30" ∧
    (∀ h : Nat, h < 24 → parseTime (natStr h) = some (pad2 (h : Int) ++ ":00")) ∧
    (∀ h : Nat, h ≤ 12 → 1 ≤ h →
      parseTime (natStr h ++ ":30 pm") = some (pad2 ((h : Int) % 12 + 12) ++ ":30")) ∧
    parseTime "abc" = none ∧
    parseTime "" = none := by decide

/-- C7 witness: the bounded clauses of `parseTime_behavior` instantiated at
the spec example `"9"`. -/
theorem parseTime_behavior_witness :
    parseTime "9" = some "09:00" := by
  have h := parseTime_behavior
  simpa using h.2.2.2.2.2.1 9 (by decide)

/-! ## C9 — month enumeration -/

/-- C9: for the window [2025-01-31, 2025-03-05], the month loop visits
2025-01 and then — because `setMonth(getMonth()+1)` on January 31 overflows
to March 3 before `setDate(1)` runs — 2025-03, skipping 2025-02 even though
February 1 lies inside the window.  Every visited month is visited once, but
a month touched by the window is missed. -/
theorem monthsToScrape_skips_february :
    monthsToScrape ⟨2025, 1, 31⟩ ⟨2025, 3, 5⟩ = [(2025, 1), (2025, 3)] ∧
    (2025, 2) ∉ monthsToScrape ⟨2025, 1, 31⟩ ⟨2025, 3, 5⟩ ∧
    dateLe ⟨2025, 1, 31⟩ ⟨2025, 2, 1⟩ = true ∧
    dateLe ⟨2025, 2, 1⟩ ⟨2025, 3, 5⟩ = true := by decide

/-! ## C2 — the date window: counterexample -/

/-- C2 counterexample: with the caller-supplied window W = [2025-07-01,
2025-07-10], a live event parsed on 2025-07-20 — outside W but inside the
fixed 90-day window from today (2025-06-01) — is returned anyway: the
per-event filter ignores `dateRange`. -/
theorem scrapeWaylandTown_ignores_dateRange_cex :
    ((scrapeWaylandTown ⟨2025, 6, 1⟩ (some (⟨2025, 7, 1⟩, ⟨2025, 7, 10⟩))
      (fun y m => if y = 2025 ∧ m = 7 then
          Except.ok [⟨"20", [⟨"Board of Health Meeting", none, "", ""⟩]⟩]
        else Except.ok [])
      "2025-06-01T00:00:00.000Z").events.map (fun e => e.startDate))
      = [⟨2025, 7, 20⟩] ∧
    dateLe ⟨2025, 7, 20⟩ ⟨2025, 7, 10⟩ = false := by decide

/-! ## C6 — duplicates: counterexample -/

/-- C6 counterexample: a run whose fetched page repeats the same link twice
in one day cell returns two candidate events with the identical
(title, start date, time-or-none) tuple — nothing is dropped and no
duplicate warning exists. -/
theorem scrapeWaylandTown_duplicates_cex :
    (((scrapeWaylandTown ⟨2025, 6, 1⟩ (some (⟨2025, 6, 1⟩, ⟨2025, 6, 15⟩))
      (fun y m => if y = 2025 ∧ m = 6 then
          Except.ok [⟨"12", [⟨"Planning Board Meeting", none, "", ""⟩,
                             ⟨"Planning Board Meeting", none, "", ""⟩]⟩]
        else Except.ok [])
      "2025-06-01T00:00:00.000Z").events.map
        (fun e => (e.title, e.startDate, e.startTime))).count
      ("Planning Board Meeting", ⟨2025, 6, 12⟩, none)) = 2 := by decide

/-! ## C4 — degrade to sample data: counterexample -/

/-- C4 counterexample: `tcan-events` is a known source, yet an extraction run
for it returns an empty events list (no representative samples), only a
warning — refuting "for every known source ... a non-empty list of fixed
representative sample events". -/
theorem scrapeTcanEvents_empty_cex :
    (scrapeTcanEvents "2025-06-01T00:00:00.000Z").events = [] ∧
    (scrapeTcanEvents "2025-06-01T00:00:00.000Z").warnings ≠ [] := by decide

/-! ## C3 — reconciliation key: counterexample -/

/-- C3 counterexample: two candidates with the same title, same calendar
start date and same source but different start times (19:00 vs 20:00) are
both persisted: the lookup key uses the stored start instant — which embeds
the time of day — so the second import inserts a second row instead of
updating, leaving two rows for one (title, calendar date, source) tuple. -/
theorem createOrUpdateEvent_time_key_cex :
    (let c1 : ScrEvent :=
      { title := "Town Meeting", startDate := ⟨2025, 8, 15⟩
        startTime := some "19:00", isAllDay := false
        calendarSource := "wayland-town" }
     let c2 : ScrEvent :=
      { title := "Town Meeting", startDate := ⟨2025, 8, 15⟩
        startTime := some "20:00", isAllDay := false
        calendarSource := "wayland-town" }
     let st1 := (createOrUpdateEvent
       (convertEnhancedScrapedEventToNewEvent c1 "2025-08-01T09:00:00.000Z")
       "2025-08-01T09:00:00.000Z" (some ⟨[], [], [], true⟩)).2
     let st2 := (createOrUpdateEvent
       (convertEnhancedScrapedEventToNewEvent c2 "2025-08-02T09:00:00.000Z")
       "2025-08-02T09:00:00.000Z" st1).2
     st2.map (fun dbv => (dbv.events.map
       (fun ev => (ev.title, strTake ev.startDate 10, ev.calendarSource))).count
       ("Town Meeting", "2025-08-15", "wayland-town")))
    = some 2 := by decide

/-! ## C10 — throwing progress callback: counterexample -/

/-- C10 counterexample: with a healthy store and a progress callback that
throws, `importFromMultipleSources` does not return the normal
`{jobId, results}` value — the exception propagates to the caller and the
job row is marked failed. -/
theorem importFromMultipleSources_callback_throw_cex :
    (importFromMultipleSources ["wayland-town"]
      (some (fun _ => Except.error "callback exploded"))
      (fun s => Except.ok (stubResult s "u" "w" "t"))
      42 "2025-08-01T00:00:00.000Z" (some ⟨[], [], [], true⟩)).1
      = Except.error "callback exploded" ∧
    ((importFromMultipleSources ["wayland-town"]
      (some (fun _ => Except.error "callback exploded"))
      (fun s => Except.ok (stubResult s "u" "w" "t"))
      42 "2025-08-01T00:00:00.000Z" (some ⟨[], [], [], true⟩)).2.map
        (fun dbv => dbv.jobs.map JobRow.status)) = some ["failed"] := by decide

/-! ## Generic list lemmas -/

theorem filterMap_length_countP {α β : Type} (f : α → Option β) (l : List α) :
    (l.filterMap f).length = l.countP (fun a => (f a).isSome) := by
  induction l with
  | nil => rfl
  | cons a as ih =>
    cases h : f a <;> simp [List.filterMap_cons, h, List.countP_cons, ih]

theorem countP_add_countP_not {α : Type} (p : α → Bool) (l : List α) :
    l.countP p + l.countP (fun a => !(p a)) = l.length := by
  induction l with
  | nil => rfl
  | cons a as ih => by_cases h : p a = true <;> simp [List.countP_cons, h, ← ih] <;> omega

/-! ## C1 — fault isolation in `scrapeMultipleSources` -/

/-- C1: for any source list and per-source invocation outcomes, with
k = the number of rejecting invocations, `results` keeps exactly |S| − k
entries, `globalErrors` carries exactly k messages each naming its failed
source, `totalSources` is |S|, and every non-rejecting source's result record
is present in `results` untouched by other sources' failures. -/
theorem scrapeMultipleSources_fault_isolation
    (sources : List String)
    (runOne : String → Except String MultiSourceScrapingResult) :
    (scrapeMultipleSources sources runOne).results.length
        + sources.countP (fun s => match runOne s with
            | Except.error _ => true
            | Except.ok _ => false) = sources.length ∧
    (scrapeMultipleSources sources runOne).globalErrors.length
        = sources.countP (fun s => match runOne s with
            | Except.error _ => true
            | Except.ok _ => false) ∧
    (scrapeMultipleSources sources runOne).totalSources = sources.length ∧
    (∀ s r, s ∈ sources → runOne s = Except.ok r →
      r ∈ (scrapeMultipleSources sources runOne).results) ∧
    (∀ msg ∈ (scrapeMultipleSources sources runOne).globalErrors,
      ∃ s e, s ∈ sources ∧ runOne s = Except.error e ∧
        msg = "Failed to scrape " ++ s ++ ": " ++ e) := by
  refine ⟨?_, ?_, rfl, ?_, ?_⟩
  · show (sources.filterMap (fun s => (runOne s).toOption)).length + _ = _
    rw [filterMap_length_countP]
    have h1 : sources.countP (fun s => ((runOne s).toOption).isSome)
        = sources.countP (fun s => !(match runOne s with
            | Except.error _ => true
            | Except.ok _ => false)) := by
      apply List.countP_congr
      intro s _
      cases h : runOne s <;> simp [h, Except.toOption]
    rw [h1]
    have h2 := countP_add_countP_not (fun s => match runOne s with
      | Except.error _ => true
      | Except.ok _ => false) sources
    omega
  · show (sources.filterMap _).length = _
    rw [filterMap_length_countP]
    apply List.countP_congr
    intro s _
    cases h : runOne s <;> simp [h]
  · intro s r hs hok
    show r ∈ sources.filterMap (fun s => (runOne s).toOption)
    exact List.mem_filterMap.mpr ⟨s, hs, by simp [hok, Except.toOption]⟩
  · intro msg hmsg
    obtain ⟨s, hs, hsome⟩ := List.mem_filterMap.mp hmsg
    cases h : runOne s with
    | ok r => rw [h] at hsome; exact absurd hsome (by simp)
    | error e =>
      rw [h] at hsome
      exact ⟨s, e, hs, h, by simpa using hsome.symm⟩

/-- C1 witness: three sources of which exactly one rejects. -/
theorem scrapeMultipleSources_fault_isolation_witness :
    stubResult "wayland-town" "u" "w" "t" ∈
      (scrapeMultipleSources ["wayland-town", "tcan-events", "arts-wayland"]
        (fun s => if s = "arts-wayland" then Except.error "fetch failed"
          else Except.ok (stubResult s "u" "w" "t"))).results ∧
    (scrapeMultipleSources ["wayland-town", "tcan-events", "arts-wayland"]
      (fun s => if s = "arts-wayland" then Except.error "fetch failed"
        else Except.ok (stubResult s "u" "w" "t"))).results.length = 2 ∧
    (scrapeMultipleSources ["wayland-town", "tcan-events", "arts-wayland"]
      (fun s => if s = "arts-wayland" then Except.error "fetch failed"
        else Except.ok (stubResult s "u" "w" "t"))).globalErrors
      = ["Failed to scrape arts-wayland: fetch failed"] ∧
    (scrapeMultipleSources ["wayland-town", "tcan-events", "arts-wayland"]
      (fun s => if s = "arts-wayland" then Except.error "fetch failed"
        else Except.ok (stubResult s "u" "w" "t"))).totalSources = 3 :=
  ⟨(scrapeMultipleSources_fault_isolation _ _).2.2.2.1 "wayland-town" _ (by decide)
    (by decide), by decide, by decide, by decide⟩

/-! ## C4 — zero live events: the amended behaviour -/

/-- C4 (amended): when the wayland-town extractor finds zero live events
after all months (including when every fetch fails), it does not throw and
substitutes the non-empty fixed sample set together with a warning; but the
eight stub extractors (tcan-events, patch-community, wayland-high-school,
wayland-wcpa, town-planner, wayland-high-athletics, wayland-middle-athletics,
wayland-library) always return an empty events list with a non-empty warnings
list — they have no sample fallback. -/
theorem zero_live_events_fallback :
    (∀ today dateRange fetchPage scrapedAt,
      (waylandLiveResult today dateRange fetchPage scrapedAt).events = [] →
        (scrapeWaylandTown today dateRange fetchPage scrapedAt).events
            = waylandSampleEvents today ∧
        (scrapeWaylandTown today dateRange fetchPage scrapedAt).events ≠ [] ∧
        (scrapeWaylandTown today dateRange fetchPage scrapedAt).warnings ≠ []) ∧
    (∀ t, (scrapeTcanEvents t).events = [] ∧ (scrapeTcanEvents t).warnings ≠ []) ∧
    (∀ t, (scrapePatchCommunity t).events = [] ∧
      (scrapePatchCommunity t).warnings ≠ []) ∧
    (∀ t, (scrapeWaylandHighSchool t).events = [] ∧
      (scrapeWaylandHighSchool t).warnings ≠ []) ∧
    (∀ t, (scrapeWaylandWcpa t).events = [] ∧ (scrapeWaylandWcpa t).warnings ≠ []) ∧
    (∀ t, (scrapeTownPlanner t).events = [] ∧ (scrapeTownPlanner t).warnings ≠ []) ∧
    (∀ t, (scrapeWaylandHighAthletics t).events = [] ∧
      (scrapeWaylandHighAthletics t).warnings ≠ []) ∧
    (∀ t, (scrapeWaylandMiddleAthletics t).events = [] ∧
      (scrapeWaylandMiddleAthletics t).warnings ≠ []) ∧
    (∀ t, (scrapeWaylandLibrary t).events = [] ∧
      (scrapeWaylandLibrary t).warnings ≠ []) := by
  refine ⟨?_, fun t => ⟨rfl, by simp [scrapeTcanEvents, stubResult]⟩,
    fun t => ⟨rfl, by simp [scrapePatchCommunity, stubResult]⟩,
    fun t => ⟨rfl, by simp [scrapeWaylandHighSchool, stubResult]⟩,
    fun t => ⟨rfl, by simp [scrapeWaylandWcpa, stubResult]⟩,
    fun t => ⟨rfl, by simp [scrapeTownPlanner, stubResult]⟩,
    fun t => ⟨rfl, by simp [scrapeWaylandHighAthletics, stubResult]⟩,
    fun t => ⟨rfl, by simp [scrapeWaylandMiddleAthletics, stubResult]⟩,
    fun t => ⟨rfl, by simp [scrapeWaylandLibrary, stubResult]⟩⟩
  intro today dateRange fetchPage scrapedAt h
  refine ⟨by simp [scrapeWaylandTown, h], by simp [scrapeWaylandTown, h, waylandSampleEvents],
    by simp [scrapeWaylandTown, h]⟩

/-- C4 witness: a run where every page fetch fails yields the sample set with
warnings, and no exception. -/
theorem zero_live_events_fallback_witness :
    (scrapeWaylandTown ⟨2025, 6, 1⟩ none (fun _ _ => Except.error "network down")
      "2025-06-01T00:00:00.000Z").events = waylandSampleEvents ⟨2025, 6, 1⟩ ∧
    (scrapeWaylandTown ⟨2025, 6, 1⟩ none (fun _ _ => Except.error "network down")
      "2025-06-01T00:00:00.000Z").warnings ≠ [] := by
  have h := zero_live_events_fallback.1 ⟨2025, 6, 1⟩ none
    (fun _ _ => Except.error "network down") "2025-06-01T00:00:00.000Z" (by decide)
  exact ⟨h.1, h.2.2⟩

/-! ## String-prefix lemmas -/

theorem leadsWith_iff_cons {p : Char} {ps s : List Char} :
    leadsWith (p :: ps) s = true ↔ ∃ cs, s = p :: cs ∧ leadsWith ps cs = true := by
  cases s with
  | nil => simp [leadsWith]
  | cons c cs =>
    simp only [leadsWith, Bool.and_eq_true, decide_eq_true_eq]
    constructor
    · rintro ⟨rfl, h⟩; exact ⟨cs, rfl, h⟩
    · rintro ⟨cs', hcs, h⟩
      obtain ⟨rfl, rfl⟩ : c = p ∧ cs = cs' := by
        have := List.cons.injEq c cs p cs' ▸ hcs
        exact ⟨this.1, this.2⟩
      exact ⟨rfl, h⟩

theorem jsStartsWith_head {u pat : String} {p : Char} {ps : List Char}
    (hpat : pat.toList = p :: ps) (h : jsStartsWith u pat = true) :
    ∃ cs, u.toList = p :: cs := by
  unfold jsStartsWith at h
  rw [hpat] at h
  obtain ⟨cs, hcs, _⟩ := leadsWith_iff_cons.mp h
  exact ⟨cs, hcs⟩

theorem jsStartsWith_false_of_head_ne {u pat1 pat2 : String} {p q : Char}
    {ps qs : List Char}
    (h1 : pat1.toList = p :: ps) (h2 : pat2.toList = q :: qs) (hne : p ≠ q)
    (h : jsStartsWith u pat1 = true) : jsStartsWith u pat2 = false := by
  obtain ⟨cs, hcs⟩ := jsStartsWith_head h1 h
  unfold jsStartsWith
  rw [h2, hcs]
  simp only [leadsWith, Bool.and_eq_false_iff]
  left
  simpa using (Ne.symm hne)

theorem ne_str_of_head {u v : String} {p : Char} {cs : List Char}
    (hcs : u.toList = p :: cs) (hv : ∀ ds, v.toList ≠ p :: ds) : u ≠ v := by
  intro he
  subst he
  exact hv cs hcs

/-! ## The `normalizeEventUrl` clause lemmas -/

theorem normalizeEventUrl_http (u b : String) (ht : jsTrimStr u = u)
    (h : jsStartsWith u "http://" = true) :
    normalizeEventUrl (some u) b = some u := by
  obtain ⟨cs, hcs⟩ := jsStartsWith_head rfl h
  have hne1 : u ≠ "" := ne_str_of_head hcs (by intro ds hd; simp at hd)
  have hne2 : u ≠ "#" := ne_str_of_head hcs (by
    intro ds hd
    rw [show ("#").toList = ['#'] from rfl] at hd
    simp at hd)
  have hne3 : u ≠ "/" := ne_str_of_head hcs (by
    intro ds hd
    rw [show ("/").toList = ['/'] from rfl] at hd
    simp at hd)
  have hjs : jsStartsWith u "javascript:" = false :=
    jsStartsWith_false_of_head_ne rfl rfl (by decide) h
  simp [normalizeEventUrl, ht, hne1, hne2, hne3, hjs, h]

theorem normalizeEventUrl_https (u b : String) (ht : jsTrimStr u = u)
    (h : jsStartsWith u "https://" = true) :
    normalizeEventUrl (some u) b = some u := by
  obtain ⟨cs, hcs⟩ := jsStartsWith_head rfl h
  have hne1 : u ≠ "" := ne_str_of_head hcs (by intro ds hd; simp at hd)
  have hne2 : u ≠ "#" := ne_str_of_head hcs (by
    intro ds hd
    rw [show ("#").toList = ['#'] from rfl] at hd
    simp at hd)
  have hne3 : u ≠ "/" := ne_str_of_head hcs (by
    intro ds hd
    rw [show ("/").toList = ['/'] from rfl] at hd
    simp at hd)
  have hjs : jsStartsWith u "javascript:" = false :=
    jsStartsWith_false_of_head_ne rfl rfl (by decide) h
  simp [normalizeEventUrl, ht, hne1, hne2, hne3, hjs, h]

theorem normalizeEventUrl_protocol_relative (u b : String) (ht : jsTrimStr u = u)
    (h : jsStartsWith u "//" = true) :
    normalizeEventUrl (some u) b = some ("https:" ++ u) := by
  have h' := h
  unfold jsStartsWith at h'
  rw [show ("//").toList = ['/', '/'] from rfl] at h'
  obtain ⟨cs, hcs, h2⟩ := leadsWith_iff_cons.mp h'
  obtain ⟨cs2, rfl, _⟩ := leadsWith_iff_cons.mp h2
  have hne1 : u ≠ "" := ne_str_of_head hcs (by intro ds hd; simp at hd)
  have hne2 : u ≠ "#" := ne_str_of_head hcs (by
    intro ds hd
    rw [show ("#").toList = ['#'] from rfl] at hd
    simp at hd)
  have hne3 : u ≠ "/" := by
    intro he
    rw [he, show ("/").toList = ['/'] from rfl] at hcs
    simp at hcs
  have hjs : jsStartsWith u "javascript:" = false :=
    jsStartsWith_false_of_head_ne rfl rfl (by decide) h
  have hhttp : jsStartsWith u "http://" = false :=
    jsStartsWith_false_of_head_ne rfl rfl (by decide) h
  have hhttps : jsStartsWith u "https://" = false :=
    jsStartsWith_false_of_head_ne rfl rfl (by decide) h
  simp [normalizeEventUrl, ht, hne1, hne2, hne3, hjs, hhttp, hhttps, h]

theorem normalizeEventUrl_relative (u b : String) (ht : jsTrimStr u = u)
    (h : jsStartsWith u "/" = true) (h2 : jsStartsWith u "//" = false)
    (hne3 : u ≠ "/") :
    normalizeEventUrl (some u) b = some (b ++ u) := by
  obtain ⟨cs, hcs⟩ := jsStartsWith_head rfl h
  have hne1 : u ≠ "" := ne_str_of_head hcs (by intro ds hd; simp at hd)
  have hne2 : u ≠ "#" := ne_str_of_head hcs (by
    intro ds hd
    rw [show ("#").toList = ['#'] from rfl] at hd
    simp at hd)
  have hjs : jsStartsWith u "javascript:" = false :=
    jsStartsWith_false_of_head_ne rfl rfl (by decide) h
  have hhttp : jsStartsWith u "http://" = false :=
    jsStartsWith_false_of_head_ne rfl rfl (by decide) h
  have hhttps : jsStartsWith u "https://" = false :=
    jsStartsWith_false_of_head_ne rfl rfl (by decide) h
  simp [normalizeEventUrl, ht, hne1, hne2, hne3, hjs, hhttp, hhttps, h, h2]

theorem normalizeEventUrl_mailto (u b : String) (ht : jsTrimStr u = u)
    (h : jsStartsWith u "mailto:" = true) :
    normalizeEventUrl (some u) b = some u := by
  obtain ⟨cs, hcs⟩ := jsStartsWith_head rfl h
  have hne1 : u ≠ "" := ne_str_of_head hcs (by intro ds hd; simp at hd)
  have hne2 : u ≠ "#" := ne_str_of_head hcs (by
    intro ds hd
    rw [show ("#").toList = ['#'] from rfl] at hd
    simp at hd)
  have hne3 : u ≠ "/" := ne_str_of_head hcs (by
    intro ds hd
    rw [show ("/").toList = ['/'] from rfl] at hd
    simp at hd)
  have hjs : jsStartsWith u "javascript:" = false :=
    jsStartsWith_false_of_head_ne rfl rfl (by decide) h
  have hhttp : jsStartsWith u "http://" = false :=
    jsStartsWith_false_of_head_ne rfl rfl (by decide) h
  have hhttps : jsStartsWith u "https://" = false :=
    jsStartsWith_false_of_head_ne rfl rfl (by decide) h
  have hslash2 : jsStartsWith u "//" = false :=
    jsStartsWith_false_of_head_ne rfl rfl (by decide) h
  have hslash : jsStartsWith u "/" = false :=
    jsStartsWith_false_of_head_ne rfl rfl (by decide) h
  simp [normalizeEventUrl, ht, hne1, hne2, hne3, hjs, hhttp, hhttps, hslash2, hslash, h]

theorem normalizeEventUrl_absent_empty (u b : String) (h : jsTrimStr u = "") :
    normalizeEventUrl (some u) b = none := by
  by_cases hu : u = ""
  · simp [normalizeEventUrl, hu]
  · simp [normalizeEventUrl, hu, h]

theorem normalizeEventUrl_absent_hash (u b : String) (h : jsTrimStr u = "#") :
    normalizeEventUrl (some u) b = none := by
  by_cases hu : u = ""
  · rw [hu] at h; exact absurd h (by decide)
  · simp [normalizeEventUrl, hu, h]

theorem normalizeEventUrl_absent_slash (u b : String) (h : jsTrimStr u = "/") :
    normalizeEventUrl (some u) b = none := by
  by_cases hu : u = ""
  · rw [hu] at h; exact absurd h (by decide)
  · simp [normalizeEventUrl, hu, h]

theorem normalizeEventUrl_absent_js (u b : String)
    (h : jsStartsWith (jsTrimStr u) "javascript:" = true) :
    normalizeEventUrl (some u) b = none := by
  by_cases hu : u = ""
  · rw [hu] at h; exact absurd h (by decide)
  · simp [normalizeEventUrl, hu, h]

/-! ## C8 — the amended `normalizeEventUrl` behaviour -/

/-- C8 (amended): `normalizeEventUrl` resolves a relative `/path` URL against
the source base, prefixes `https:` to protocol-relative `//host/path` URLs,
passes `mailto:`, already-`https://` and — differing from the claim — also
bare `http://` URLs through unchanged (no https upgrade), and treats empty,
`#`, `/` and `javascript:` inputs (and a missing input) as absent.  Every
hypothesis `jsTrimStr u = u` says the input carries no surrounding
whitespace, which the function would strip first. -/
theorem normalizeEventUrl_clauses :
    (∀ b, normalizeEventUrl none b = none) ∧
    (∀ u b, jsTrimStr u = "" → normalizeEventUrl (some u) b = none) ∧
    (∀ u b, jsTrimStr u = "#" → normalizeEventUrl (some u) b = none) ∧
    (∀ u b, jsTrimStr u = "/" → normalizeEventUrl (some u) b = none) ∧
    (∀ u b, jsStartsWith (jsTrimStr u) "javascript:" = true →
      normalizeEventUrl (some u) b = none) ∧
    (∀ u b, jsTrimStr u = u → jsStartsWith u "http://" = true →
      normalizeEventUrl (some u) b = some u) ∧
    (∀ u b, jsTrimStr u = u → jsStartsWith u "https://" = true →
      normalizeEventUrl (some u) b = some u) ∧
    (∀ u b, jsTrimStr u = u → jsStartsWith u "//" = true →
      normalizeEventUrl (some u) b = some ("https:" ++ u)) ∧
    (∀ u b, jsTrimStr u = u → jsStartsWith u "/" = true →
      jsStartsWith u "//" = false → u ≠ "/" →
      normalizeEventUrl (some u) b = some (b ++ u)) ∧
    (∀ u b, jsTrimStr u = u → jsStartsWith u "mailto:" = true →
      normalizeEventUrl (some u) b = some u) ∧
    normalizeEventUrl (some "/calendar/event/1") "https://example.org"
      = some "https://example.org/calendar/event/1" ∧
    (∀ b, normalizeEventUrl (some "#") b = none) :=
  ⟨fun _ => rfl,
   normalizeEventUrl_absent_empty,
   normalizeEventUrl_absent_hash,
   normalizeEventUrl_absent_slash,
   normalizeEventUrl_absent_js,
   normalizeEventUrl_http,
   normalizeEventUrl_https,
   normalizeEventUrl_protocol_relative,
   normalizeEventUrl_relative,
   normalizeEventUrl_mailto,
   by decide,
   fun b => normalizeEventUrl_absent_hash "#" b (by decide)⟩

/-- C8 witness: the clauses instantiated at concrete URLs. -/
theorem normalizeEventUrl_clauses_witness :
    normalizeEventUrl (some "http://www.wayland.ma.us/node/5") "https://www.wayland.ma.us"
      = some "http://www.wayland.ma.us/node/5" ∧
    normalizeEventUrl (some "//cdn.example.org/a.ics") "https://www.wayland.ma.us"
      = some "https://cdn.example.org/a.ics" ∧
    normalizeEventUrl (some "/calendar/node/7") "https://www.wayland.ma.us"
      = some "https://www.wayland.ma.us/calendar/node/7" ∧
    normalizeEventUrl (some "mailto:info@wayland.ma.us") "https://www.wayland.ma.us"
      = some "mailto:info@wayland.ma.us" ∧
    normalizeEventUrl (some "javascript:void(0)") "https://www.wayland.ma.us" = none :=
  ⟨normalizeEventUrl_clauses.2.2.2.2.2.1 _ _ (by decide) (by decide),
   normalizeEventUrl_clauses.2.2.2.2.2.2.2.1 _ _ (by decide) (by decide),
   normalizeEventUrl_clauses.2.2.2.2.2.2.2.2.1 _ _ (by decide) (by decide) (by decide)
     (by decide),
   normalizeEventUrl_clauses.2.2.2.2.2.2.2.2.2.1 _ _ (by decide) (by decide),
   normalizeEventUrl_clauses.2.2.2.2.1 _ _ (by decide)⟩

/-! ## Calendar-date lemmas -/

theorem daysInMonth_bounds (y m : Int) : 28 ≤ daysInMonth y m ∧ daysInMonth y m ≤ 31 := by
  unfold daysInMonth
  split_ifs <;> omega

theorem validYmd_nextDay {a : Ymd} (h : ValidYmd a) : ValidYmd (nextDay a) := by
  obtain ⟨y, m, d⟩ := a
  obtain ⟨h1, h2, h3, h4⟩ := h
  have hb := daysInMonth_bounds y m
  have hb2 := daysInMonth_bounds y (m + 1)
  have hb3 := daysInMonth_bounds (y + 1) 1
  simp only [ValidYmd, nextDay] at *
  split_ifs <;> dsimp only <;> exact ⟨by omega, by omega, by omega, by omega⟩

theorem encYmd_lt_nextDay {a : Ymd} (h : ValidYmd a) : encYmd a < encYmd (nextDay a) := by
  obtain ⟨y, m, d⟩ := a
  obtain ⟨h1, h2, h3, h4⟩ := h
  have hb := daysInMonth_bounds y m
  simp only [ValidYmd, nextDay, encYmd] at *
  split_ifs <;> dsimp only <;> omega

theorem validYmd_addDays {a : Ymd} (h : ValidYmd a) (n : Nat) : ValidYmd (addDays a n) := by
  induction n with
  | zero => simpa [addDays]
  | succ k ih =>
    rw [addDays, Function.iterate_succ_apply']
    exact validYmd_nextDay ih

theorem encYmd_le_addDays {a : Ymd} (h : ValidYmd a) (n : Nat) :
    encYmd a ≤ encYmd (addDays a n) := by
  induction n with
  | zero => simp [addDays]
  | succ k ih =>
    rw [addDays, Function.iterate_succ_apply']
    exact le_trans ih (le_of_lt (encYmd_lt_nextDay (validYmd_addDays h k)))

theorem addDays_mono {a : Ymd} (h : ValidYmd a) {m n : Nat} (hmn : m ≤ n) :
    encYmd (addDays a m) ≤ encYmd (addDays a n) := by
  have heq : addDays a n = addDays (addDays a m) (n - m) := by
    unfold addDays
    rw [← Function.iterate_add_apply]
    congr 1
    omega
  rw [heq]
  exact encYmd_le_addDays (validYmd_addDays h m) (n - m)

theorem dateLe_iff {a b : Ymd} : dateLe a b = true ↔ encYmd a ≤ encYmd b := by
  simp [dateLe]

/-! ## C2 — the returned events always lie in the fixed 90-day window -/

theorem processEventLink_window {y m day : Int} {today : Ymd} {l : LinkEl} {e : ScrEvent}
    (h : processEventLink y m day today l = some e) :
    dateLe today e.startDate = true ∧ dateLe e.startDate (addDays today 90) = true := by
  unfold processEventLink at h
  split at h
  · simp at h
  · split at h
    · rename_i hcond
      rw [Bool.and_eq_true] at hcond
      obtain ⟨hc1, hc2⟩ := hcond
      dsimp only at h
      split at h
      · simp at h
      · rw [Option.some.injEq] at h
        subst h
        exact ⟨hc1, hc2⟩
    · simp at h

theorem processPage_window {y m : Int} {today : Ymd} {page : CalPage} {e : ScrEvent}
    (h : e ∈ processPage y m today page) :
    dateLe today e.startDate = true ∧ dateLe e.startDate (addDays today 90) = true := by
  obtain ⟨cell, _, hc⟩ := List.mem_flatMap.mp h
  unfold processDayCell at hc
  split at hc
  · cases hc
  · obtain ⟨l, _, hl⟩ := List.mem_filterMap.mp hc
    exact processEventLink_window hl

theorem scrapeMonth_window {today : Ymd} {fetchPage : Int → Int → Except String CalPage}
    {r : MultiSourceScrapingResult} {ym : Int × Int} {e : ScrEvent}
    (hr : ∀ e ∈ r.events,
      dateLe today e.startDate = true ∧ dateLe e.startDate (addDays today 90) = true)
    (h : e ∈ (scrapeMonth today fetchPage r ym).events) :
    dateLe today e.startDate = true ∧ dateLe e.startDate (addDays today 90) = true := by
  unfold scrapeMonth at h
  cases hf : fetchPage ym.1 ym.2 with
  | error msg =>
    rw [hf] at h
    exact hr e (by simpa using h)
  | ok page =>
    rw [hf] at h
    simp only at h
    rcases List.mem_append.mp (by
      revert h
      split <;> intro h <;> simpa using h) with hl | hp
    · exact hr e hl
    · exact processPage_window hp

theorem foldl_scrapeMonth_window {today : Ymd}
    {fetchPage : Int → Int → Except String CalPage}
    (months : List (Int × Int)) (r : MultiSourceScrapingResult)
    (hr : ∀ e ∈ r.events,
      dateLe today e.startDate = true ∧ dateLe e.startDate (addDays today 90) = true) :
    ∀ e ∈ (months.foldl (scrapeMonth today fetchPage) r).events,
      dateLe today e.startDate = true ∧ dateLe e.startDate (addDays today 90) = true := by
  induction months generalizing r with
  | nil => simpa
  | cons ym rest ih =>
    intro e he
    rw [List.foldl_cons] at he
    exact ih (scrapeMonth today fetchPage r ym) (fun e' he' => scrapeMonth_window hr he') e he

theorem waylandSampleEvents_window {today : Ymd} (hv : ValidYmd today) :
    ∀ e ∈ waylandSampleEvents today,
      dateLe today e.startDate = true ∧ dateLe e.startDate (addDays today 90) = true := by
  intro e he
  have h5 : dateLe today (addDays today 5) = true ∧
      dateLe (addDays today 5) (addDays today 90) = true :=
    ⟨dateLe_iff.mpr (encYmd_le_addDays hv 5), dateLe_iff.mpr (addDays_mono hv (by omega))⟩
  have h12 : dateLe today (addDays today 12) = true ∧
      dateLe (addDays today 12) (addDays today 90) = true :=
    ⟨dateLe_iff.mpr (encYmd_le_addDays hv 12), dateLe_iff.mpr (addDays_mono hv (by omega))⟩
  have h19 : dateLe today (addDays today 19) = true ∧
      dateLe (addDays today 19) (addDays today 90) = true :=
    ⟨dateLe_iff.mpr (encYmd_le_addDays hv 19), dateLe_iff.mpr (addDays_mono hv (by omega))⟩
  simp only [waylandSampleEvents, List.mem_cons, List.mem_singleton] at he
  rcases he with rfl | rfl | rfl | h
  · exact h5
  · exact h12
  · exact h19
  · cases h

/-- C2 (amended): every candidate event returned by a wayland-town extraction
run — live-parsed or sample fallback — has its start date inside the fixed
window [today, today + 90 days], both endpoints included, regardless of any
caller-supplied `dateRange`; the caller's range only selects which months are
fetched, never the per-event filter. -/
theorem scrapeWaylandTown_window_fixed90
    (today : Ymd) (dateRange : Option (Ymd × Ymd))
    (fetchPage : Int → Int → Except String CalPage) (scrapedAt : String)
    (hv : ValidYmd today) :
    ∀ e ∈ (scrapeWaylandTown today dateRange fetchPage scrapedAt).events,
      dateLe today e.startDate = true ∧ dateLe e.startDate (addDays today 90) = true := by
  intro e he
  have hlive : ∀ e' ∈ (waylandLiveResult today dateRange fetchPage scrapedAt).events,
      dateLe today e'.startDate = true ∧ dateLe e'.startDate (addDays today 90) = true := by
    intro e' he'
    unfold waylandLiveResult at he'
    exact foldl_scrapeMonth_window _ _ (by simp) e' he'
  unfold scrapeWaylandTown at he
  simp only at he
  split at he
  · rcases List.mem_append.mp (by simpa using he) with hl | hs
    · exact hlive e hl
    · exact waylandSampleEvents_window hv e hs
  · exact hlive e he

/-- C2 witness: a run with every fetch failing, today = 2025-06-01; the first
sample event (dated 2025-06-06) is in the returned list and inside the fixed
window. -/
theorem scrapeWaylandTown_window_fixed90_witness :
    dateLe ⟨2025, 6, 1⟩
        (({ title := "Board of Selectmen Meeting"
            description := some "Regular meeting of the Board of Selectmen"
            startDate := ⟨2025, 6, 6⟩
            startTime := some "19:00"
            isAllDay := false
            location := some "Wayland Town Building - Selectmen\x27s Room"
            category := some "meeting"
            department := some "selectmen"
            calendarSource := "wayland-town"
            venue := some "Wayland Town Building"
            organizerName := some "Town of Wayland"
            tags := some ["government", "municipal", "meeting"] } : ScrEvent)).startDate
      = true := by
  have h := scrapeWaylandTown_window_fixed90 ⟨2025, 6, 1⟩ none
    (fun _ _ => Except.error "network down") "2025-06-01T00:00:00.000Z" (by decide)
    { title := "Board of Selectmen Meeting"
      description := some "Regular meeting of the Board of Selectmen"
      startDate := ⟨2025, 6, 6⟩
      startTime := some "19:00"
      isAllDay := false
      location := some "Wayland Town Building - Selectmen\x27s Room"
      category := some "meeting"
      department := some "selectmen"
      calendarSource := "wayland-town"
      venue := some "Wayland Town Building"
      organizerName := some "Town of Wayland"
      tags := some ["government", "municipal", "meeting"] }
    (by decide)
  exact h.1

/-! ## C6 — no intra-run de-duplication -/

theorem scrapeMonth_events (today : Ymd) (fetchPage : Int → Int → Except String CalPage)
    (r : MultiSourceScrapingResult) (ym : Int × Int) :
    (scrapeMonth today fetchPage r ym).events = r.events ++
      (match fetchPage ym.1 ym.2 with
       | Except.ok page => processPage ym.1 ym.2 today page
       | Except.error _ => []) := by
  unfold scrapeMonth
  cases hf : fetchPage ym.1 ym.2 with
  | error msg => simp
  | ok page => dsimp only; split <;> simp

theorem foldl_scrapeMonth_events (today : Ymd)
    (fetchPage : Int → Int → Except String CalPage)
    (months : List (Int × Int)) (r : MultiSourceScrapingResult) :
    (months.foldl (scrapeMonth today fetchPage) r).events = r.events ++
      months.flatMap (fun ym => match fetchPage ym.1 ym.2 with
        | Except.ok page => processPage ym.1 ym.2 today page
        | Except.error _ => []) := by
  induction months generalizing r with
  | nil => simp
  | cons ym rest ih =>
    rw [List.foldl_cons, List.flatMap_cons, ih, scrapeMonth_events, List.append_assoc]

theorem monthsToScrapeAux_nodup (fuel : Nat) :
    ∀ cur endD acc, acc.Nodup → (monthsToScrapeAux fuel cur endD acc).Nodup := by
  induction fuel with
  | zero => intro _ _ _ h; simpa [monthsToScrapeAux]
  | succ n ih =>
    intro cur endD acc h
    unfold monthsToScrapeAux
    split
    · apply ih
      split
      · exact h
      · rename_i hnm
        simp [List.nodup_append, h, hnm]
    · exact h

theorem monthsToScrape_nodup (s e : Ymd) : (monthsToScrape s e).Nodup :=
  monthsToScrapeAux_nodup 4800 s e [] (by simp)

theorem flatMap_eq_nil_of {α β : Type} (l : List α) (g : α → List β)
    (h : ∀ x ∈ l, g x = []) : l.flatMap g = [] := by
  induction l with
  | nil => rfl
  | cons a as ih =>
    rw [List.flatMap_cons, h a (List.mem_cons_self a as), List.nil_append]
    exact ih (fun x hx => h x (List.mem_cons_of_mem a hx))

theorem flatMap_single_hit {α β : Type} (months : List α) (t : α) (g : α → List β)
    (hnd : months.Nodup) (hmem : t ∈ months) (hz : ∀ x ∈ months, x ≠ t → g x = []) :
    months.flatMap g = g t := by
  induction months with
  | nil => cases hmem
  | cons a as ih =>
    rw [List.flatMap_cons]
    rcases List.mem_cons.mp hmem with rfl | hmas
    · have hz' : ∀ x ∈ as, g x = [] := fun x hx =>
        hz x (List.mem_cons_of_mem _ hx)
          (fun hxa => (List.nodup_cons.mp hnd).1 (hxa ▸ hx))
      rw [flatMap_eq_nil_of as g hz', List.append_nil]
    · have ha : g a = [] := hz a (List.mem_cons_self a as)
        (fun hat => (List.nodup_cons.mp hnd).1 (hat ▸ hmas))
      rw [ha, List.nil_append]
      exact ih (List.nodup_cons.mp hnd).2 hmas
        (fun x hx hxt => hz x (List.mem_cons_of_mem a hx) hxt)

/-- C6 (amended): the extractor performs no de-duplication at all — when the
same link appears twice in a fetched day cell and its parse is accepted, the
resulting candidate appears twice in the returned events list (identical
(title, start date, time) tuple included), and no duplicate is dropped or
warned about. -/
theorem scrapeWaylandTown_no_dedup
    (today ws we : Ymd) (y m day : Int) (dnt : String) (l : LinkEl) (e : ScrEvent)
    (scrapedAt : String)
    (hmem : (y, m) ∈ monthsToScrape ws we)
    (hday : parseDayNumber ⟨dnt, [l, l]⟩ = some day)
    (hlink : processEventLink y m day today l = some e) :
    ((scrapeWaylandTown today (some (ws, we))
        (fun y' m' => if y' = y ∧ m' = m then Except.ok [⟨dnt, [l, l]⟩]
          else Except.ok [])
        scrapedAt).events).count e = 2 := by
  have hpage : processPage y m today [⟨dnt, [l, l]⟩] = [e, e] := by
    unfold processPage processDayCell
    rw [List.flatMap_cons]
    dsimp only
    rw [hday]
    simp [List.filterMap_cons, hlink]
  have hlive : (waylandLiveResult today (some (ws, we))
      (fun y' m' => if y' = y ∧ m' = m then Except.ok [⟨dnt, [l, l]⟩]
        else Except.ok []) scrapedAt).events = [e, e] := by
    unfold waylandLiveResult
    rw [foldl_scrapeMonth_events]
    dsimp only
    rw [flatMap_single_hit (monthsToScrape ws we) (y, m) _
      (monthsToScrape_nodup ws we) hmem ?hz]
    · simp [hpage]
    case hz =>
      intro x hx hxt
      have : ¬(x.1 = y ∧ x.2 = m) := by
        intro ⟨hx1, hx2⟩
        exact hxt (Prod.ext hx1 hx2)
      simp only [this, if_false]
      rfl
  simp [scrapeWaylandTown, hlive, List.count_cons]

/-- C6 witness: a concrete run whose fetched June page holds the same
"Planning Board Meeting" link twice in the day-12 cell returns that candidate
twice. -/
theorem scrapeWaylandTown_no_dedup_witness :
    ((scrapeWaylandTown ⟨2025, 6, 1⟩ (some (⟨2025, 6, 1⟩, ⟨2025, 6, 15⟩))
        (fun y' m' => if y' = 2025 ∧ m' = 6 then
            Except.ok [⟨"12", [⟨"Planning Board Meeting", none, "", ""⟩,
                               ⟨"Planning Board Meeting", none, "", ""⟩]⟩]
          else Except.ok [])
        "2025-06-01T00:00:00.000Z").events).count
      { title := "Planning Board Meeting"
        description := some "Planning Board Meeting - Regular municipal meeting"
        startDate := ⟨2025, 6, 12⟩
        isAllDay := true
        startTime := none
        location := some "Wayland Town Building"
        category := some "meeting"
        department := some "planning"
        calendarSource := "wayland-town"
        url := none
        venue := some "Wayland Town Building"
        organizerName := some "Town of Wayland"
        tags := some ["government", "municipal", "meeting", "planning"] } = 2 :=
  scrapeWaylandTown_no_dedup ⟨2025, 6, 1⟩ ⟨2025, 6, 1⟩ ⟨2025, 6, 15⟩ 2025 6 12 "12"
    ⟨"Planning Board Meeting", none, "", ""⟩ _ "2025-06-01T00:00:00.000Z"
    (by decide) (by decide) (by decide)

/-! ## C3 — upsert reconciliation on a live store -/

theorem foldl_max_init_le (l : List Int) (a : Int) : a ≤ l.foldl max a := by
  induction l generalizing a with
  | nil => exact le_refl a
  | cons x xs ih => exact le_trans (le_max_left a x) (ih (max a x))

theorem mem_le_foldl_max (l : List Int) (a x : Int) (hx : x ∈ l) : x ≤ l.foldl max a := by
  induction l generalizing a with
  | nil => cases hx
  | cons y ys ih =>
    rcases List.mem_cons.mp hx with rfl | h
    · exact le_trans (le_max_right a x) (foldl_max_init_le ys (max a x))
    · exact ih (max a y) h

theorem nextEventId_fresh (dbv : Db) : ∀ ev ∈ dbv.events, ev.id < nextEventId dbv := by
  intro ev hev
  have := mem_le_foldl_max (dbv.events.map EventRow.id) 0 ev.id
    (List.mem_map_of_mem _ hev)
  unfold nextEventId
  omega

theorem eventMatchesKey_iff {d : NewEvent} {ev : EventRow} :
    eventMatchesKey d ev = true ↔ dbKey ev = newKey d := by
  simp only [eventMatchesKey, dbKey, newKey, Bool.and_eq_true, decide_eq_true_eq,
    Prod.ext_iff]
  tauto

theorem key_unique {dbv : Db} (hinv : DbInv dbv) {a b : EventRow}
    (ha : a ∈ dbv.events) (hb : b ∈ dbv.events) (hk : dbKey a = dbKey b) : a = b := by
  by_contra hne
  have hsym : Symmetric (fun a b : EventRow => dbKey a ≠ dbKey b) :=
    fun x y hxy he => hxy he.symm
  exact (hinv.2.forall hsym ha hb hne) hk

theorem id_unique {dbv : Db} (hinv : DbInv dbv) {a b : EventRow}
    (ha : a ∈ dbv.events) (hb : b ∈ dbv.events) (hid : a.id = b.id) : a = b :=
  List.inj_on_of_nodup_map hinv.1 ha hb hid

theorem createOrUpdate_filter_head {dbv : Db} {d : NewEvent} {f : EventRow}
    (hinv : DbInv dbv) (hf : f ∈ dbv.events) (hk : dbKey f = newKey d) :
    (dbv.events.filter (eventMatchesKey d)).head? = some f := by
  have hfmem : f ∈ dbv.events.filter (eventMatchesKey d) :=
    List.mem_filter.mpr ⟨hf, eventMatchesKey_iff.mpr hk⟩
  cases hfil : dbv.events.filter (eventMatchesKey d) with
  | nil => rw [hfil] at hfmem; cases hfmem
  | cons ex rest =>
    have hexmem : ex ∈ dbv.events.filter (eventMatchesKey d) := by
      rw [hfil]; exact List.mem_cons_self ex rest
    obtain ⟨hex_ev, hex_match⟩ := List.mem_filter.mp hexmem
    have hexf : ex = f :=
      key_unique hinv hex_ev hf ((eventMatchesKey_iff.mp hex_match).trans hk.symm)
    rw [List.head?_cons, hexf]

theorem dbKey_insertEventRow (idNew : Int) {d : NewEvent} (hok : okSrc d) :
    dbKey (insertEventRow idNew d) = newKey d := by
  show (d.title, d.startDate, (d.calendarSource).getD "wayland-town")
    = (d.title, d.startDate, newEventKeySource d)
  cases hcs : d.calendarSource with
  | none => simp [newEventKeySource, hcs]
  | some s =>
    have hs : s ≠ "" := fun he => hok (by rw [hcs, he])
    simp [newEventKeySource, hcs, hs]

theorem dbKey_applyEventUpdate {f₀ : EventRow} {d : NewEvent} {now : String}
    (hok : okSrc d) (hk : dbKey f₀ = newKey d) :
    dbKey (applyEventUpdate f₀ d now) = newKey d := by
  have h3 : f₀.calendarSource = newEventKeySource d := congrArg (fun t => t.2.2) hk
  show (d.title, d.startDate, (d.calendarSource).getD f₀.calendarSource)
    = (d.title, d.startDate, newEventKeySource d)
  cases hcs : d.calendarSource with
  | none => simp [hcs, h3]
  | some s =>
    have hs : s ≠ "" := fun he => hok (by rw [hcs, he])
    simp [newEventKeySource, hcs, hs]

theorem createOrUpdateDb_found (dbv : Db) (d : NewEvent) (now : String) (f : EventRow)
    (hinv : DbInv dbv) (hf : f ∈ dbv.events) (hk : dbKey f = newKey d) :
    (createOrUpdateDb dbv d now).2.events.length = dbv.events.length ∧
    applyEventUpdate f d now ∈ (createOrUpdateDb dbv d now).2.events ∧
    (createOrUpdateDb dbv d now).1 = applyEventUpdate f d now := by
  unfold createOrUpdateDb
  rw [createOrUpdate_filter_head hinv hf hk]
  refine ⟨by simp, ?_, rfl⟩
  exact List.mem_map.mpr ⟨f, hf, by simp⟩

theorem createOrUpdateDb_inv {dbv : Db} {d : NewEvent} {now : String}
    (hinv : DbInv dbv) (hok : okSrc d) : DbInv (createOrUpdateDb dbv d now).2 := by
  unfold createOrUpdateDb DbInv
  cases hfil : (dbv.events.filter (eventMatchesKey d)).head? with
  | some f₀ =>
    have hmem : f₀ ∈ dbv.events.filter (eventMatchesKey d) :=
      List.mem_of_mem_head? (by rw [hfil]; rfl)
    obtain ⟨hf₀, hf₀m⟩ := List.mem_filter.mp hmem
    have hk₀ : dbKey f₀ = newKey d := eventMatchesKey_iff.mp hf₀m
    dsimp only
    constructor
    · have hids : (dbv.events.map
          (fun ev => if ev.id = f₀.id then applyEventUpdate ev d now else ev)).map
            EventRow.id = dbv.events.map EventRow.id := by
        rw [List.map_map]
        apply List.map_congr_left
        intro ev _
        by_cases hid : ev.id = f₀.id <;> simp [hid, applyEventUpdate]
      rw [hids]
      exact hinv.1
    · have hkeys : ∀ ev ∈ dbv.events,
          dbKey (if ev.id = f₀.id then applyEventUpdate ev d now else ev) = dbKey ev := by
        intro ev hev
        by_cases hid : ev.id = f₀.id
        · have hef : ev = f₀ := id_unique hinv hev hf₀ hid
          subst hef
          rw [if_pos hid]
          exact (dbKey_applyEventUpdate hok hk₀).trans hk₀.symm
        · rw [if_neg hid]
      rw [List.pairwise_map]
      exact hinv.2.imp_of_mem (fun {a b} ha hb hR => by
        rw [← hkeys a ha, ← hkeys b hb] at hR
        exact fun he => hR (by rw [hkeys a ha, hkeys b hb] at he ⊢; exact he))
  | none =>
    have hnomatch : ∀ x ∈ dbv.events, dbKey x ≠ newKey d := by
      intro x hx hkey
      have hxf : x ∈ dbv.events.filter (eventMatchesKey d) :=
        List.mem_filter.mpr ⟨hx, eventMatchesKey_iff.mpr hkey⟩
      cases hfl : dbv.events.filter (eventMatchesKey d) with
      | nil => rw [hfl] at hxf; cases hxf
      | cons a as => rw [hfl, List.head?_cons] at hfil; cases hfil
    dsimp only
    constructor
    · rw [List.map_append]
      rw [List.nodup_append]
      refine ⟨hinv.1, List.nodup_singleton _, ?_⟩
      intro x hx hy
      simp only [List.map_cons, List.map_nil, List.mem_singleton] at hy
      subst hy
      obtain ⟨ev, hev, hevid⟩ := List.mem_map.mp hx
      exact absurd hevid (ne_of_lt (nextEventId_fresh dbv ev hev))
    · rw [List.pairwise_append]
      refine ⟨hinv.2, List.pairwise_singleton _ _, ?_⟩
      intro a ha b hb
      simp only [List.mem_singleton] at hb
      subst hb
      rw [dbKey_insertEventRow _ hok]
      exact hnomatch a ha

theorem applyImport_inv_seq (ops : List (NewEvent × String)) :
    ∀ dbv, DbInv dbv → (∀ p ∈ ops, okSrc p.1) → DbInv (ops.foldl applyImport dbv) := by
  induction ops with
  | nil => intro dbv h _; simpa
  | cons p ps ih =>
    intro dbv h hok
    rw [List.foldl_cons]
    exact ih _ (createOrUpdateDb_inv h (hok p (List.mem_cons_self p ps)))
      (fun q hq => hok q (List.mem_cons_of_mem p hq))

/-- C3 (amended): the reconciliation key is (title, stored start instant,
source) — the stored start instant embeds the start time of day.  When a
payload with that exact key matches a persisted row on a live store, the row
is updated in place with `updatedAt` refreshed and the store size is
unchanged; and any sequence of reconciliations with non-degenerate source
fields preserves the at-most-one-row-per-key invariant (and distinct ids).
Two candidates sharing (title, calendar date, source) but differing in start
time occupy two distinct keys and therefore two rows —
see `createOrUpdateEvent_time_key_cex`. -/
theorem createOrUpdateEvent_upsert_invariant :
    (∀ dbv (d : NewEvent) (now : String) (f : EventRow), DbInv dbv → okSrc d →
      f ∈ dbv.events → dbKey f = newKey d →
      (createOrUpdateDb dbv d now).2.events.length = dbv.events.length ∧
      applyEventUpdate f d now ∈ (createOrUpdateDb dbv d now).2.events ∧
      (applyEventUpdate f d now).updatedAt = now ∧
      (applyEventUpdate f d now).id = f.id ∧
      dbKey (applyEventUpdate f d now) = newKey d) ∧
    (∀ (ops : List (NewEvent × String)) dbv, DbInv dbv →
      (∀ p ∈ ops, okSrc p.1) → DbInv (ops.foldl applyImport dbv)) ∧
    (∀ dbv (d : NewEvent) (now : String), dbv.healthy = true →
      createOrUpdateEvent d now (some dbv)
        = ((createOrUpdateDb dbv d now).1, some (createOrUpdateDb dbv d now).2)) := by
  refine ⟨?_, applyImport_inv_seq, ?_⟩
  · intro dbv d now f hinv hok hf hk
    obtain ⟨h1, h2, _⟩ := createOrUpdateDb_found dbv d now f hinv hf hk
    exact ⟨h1, h2, rfl, rfl, dbKey_applyEventUpdate hok hk⟩
  · intro dbv d now hh
    simp [createOrUpdateEvent, withDatabaseFallback, opCreateOrUpdateEvent, hh]

/-- C3 witness: re-importing the identical candidate (same title, date, time,
source) updates in place, keeping a single row. -/
theorem createOrUpdateEvent_upsert_invariant_witness :
    (createOrUpdateDb
      (createOrUpdateDb ⟨[], [], [], true⟩
        (convertEnhancedScrapedEventToNewEvent
          { title := "Town Meeting", startDate := ⟨2025, 8, 15⟩
            startTime := some "19:00", isAllDay := false
            calendarSource := "wayland-town" } "2025-08-01T09:00:00.000Z")
        "2025-08-01T09:00:00.000Z").2
      (convertEnhancedScrapedEventToNewEvent
        { title := "Town Meeting", startDate := ⟨2025, 8, 15⟩
          startTime := some "19:00", isAllDay := false
          calendarSource := "wayland-town" } "2025-08-02T09:00:00.000Z")
      "2025-08-02T09:00:00.000Z").2.events.length
    = (createOrUpdateDb ⟨[], [], [], true⟩
        (convertEnhancedScrapedEventToNewEvent
          { title := "Town Meeting", startDate := ⟨2025, 8, 15⟩
            startTime := some "19:00", isAllDay := false
            calendarSource := "wayland-town" } "2025-08-01T09:00:00.000Z")
        "2025-08-01T09:00:00.000Z").2.events.length := by
  have h := createOrUpdateEvent_upsert_invariant.1
    (createOrUpdateDb ⟨[], [], [], true⟩
      (convertEnhancedScrapedEventToNewEvent
        { title := "Town Meeting", startDate := ⟨2025, 8, 15⟩
          startTime := some "19:00", isAllDay := false
          calendarSource := "wayland-town" } "2025-08-01T09:00:00.000Z")
      "2025-08-01T09:00:00.000Z").2
    (convertEnhancedScrapedEventToNewEvent
      { title := "Town Meeting", startDate := ⟨2025, 8, 15⟩
        startTime := some "19:00", isAllDay := false
        calendarSource := "wayland-town" } "2025-08-02T09:00:00.000Z")
    "2025-08-02T09:00:00.000Z"
    (createOrUpdateDb ⟨[], [], [], true⟩
      (convertEnhancedScrapedEventToNewEvent
        { title := "Town Meeting", startDate := ⟨2025, 8, 15⟩
          startTime := some "19:00", isAllDay := false
          calendarSource := "wayland-town" } "2025-08-01T09:00:00.000Z")
      "2025-08-01T09:00:00.000Z").1
    (by decide) (by decide) (by decide) (by decide)
  exact h.1

/-! ## C5 — the fallback-mode contract -/

theorem withDatabaseFallback_broken {α : Type} (op : DbAct α) (fb : α) (st : DbSt)
    (hb : dbBroken st) : withDatabaseFallback op fb st = (fb, st) := by
  cases st with
  | none => rfl
  | some dbv =>
    have hh : dbv.healthy = false := hb
    simp [withDatabaseFallback, hh]

theorem createOrUpdateEvent_broken (d : NewEvent) (now : String) (st : DbSt)
    (hb : dbBroken st) : createOrUpdateEvent d now st = (fallbackEvent0, st) :=
  withDatabaseFallback_broken _ _ _ hb

theorem updateCalendarSource_broken (idS : String) (u : SourceUpdates) (now : String)
    (st : DbSt) (hb : dbBroken st) : updateCalendarSource idS u now st = ((), st) :=
  withDatabaseFallback_broken _ _ _ hb

theorem importEventsOfSource_broken (evs : List ScrEvent) (now : String) (st : DbSt)
    (hb : dbBroken st) : importEventsOfSource evs now st = (evs.length, st) := by
  unfold importEventsOfSource
  suffices h : ∀ k : Nat, evs.foldl (fun acc ev =>
      let d := convertEnhancedScrapedEventToNewEvent ev now
      let p := createOrUpdateEvent d now acc.2
      (acc.1 + 1, p.2)) (k, st) = (k + evs.length, st) by
    simpa using h 0
  induction evs with
  | nil => intro k; simp
  | cons ev rest ih =>
    intro k
    rw [List.foldl_cons]
    have hstep : (createOrUpdateEvent (convertEnhancedScrapedEventToNewEvent ev now)
        now st).2 = st := by
      rw [createOrUpdateEvent_broken _ _ _ hb]
    dsimp only
    rw [hstep, ih (k + 1)]
    congr 1
    simp
    omega

theorem importLoop_broken (cb : Option ProgressCb) (now : String) (totalLen : Nat)
    (hcb : ∀ p, invokeCb cb p = Except.ok ())
    (rs : List MultiSourceScrapingResult) :
    ∀ (i imported : Nat) (errs warns : List String) (st : DbSt), dbBroken st →
      ∃ t, importLoop cb now totalLen rs i imported errs warns st
        = (Except.ok t, st) := by
  induction rs with
  | nil => intro i imported errs warns st _; exact ⟨_, rfl⟩
  | cons r rest ih =>
    intro i imported errs warns st hb
    simp only [importLoop, hcb, importEventsOfSource_broken _ _ _ hb,
      updateCalendarSource_broken _ _ _ _ hb]
    exact ih _ _ _ _ st hb

theorem importFromMultipleSources_broken (sources : List String)
    (cb : Option ProgressCb)
    (runOne : String → Except String MultiSourceScrapingResult)
    (syntheticId : Int) (now : String) (st : DbSt)
    (hb : dbBroken st) (hcb : ∀ p, invokeCb cb p = Except.ok ()) :
    importFromMultipleSources sources cb runOne syntheticId now st
      = (Except.ok (syntheticId, scrapeMultipleSources sources runOne), st) := by
  obtain ⟨t, ht⟩ := importLoop_broken cb now
    (scrapeMultipleSources sources runOne).results.length hcb
    (scrapeMultipleSources sources runOne).results 0 0
    (scrapeMultipleSources sources runOne).globalErrors [] st hb
  simp only [importFromMultipleSources, withDatabaseFallback_broken _ _ _ hb, hcb, ht]

/-- C5: with the storage gateway absent (`db()` null) or unhealthy, every
core operation completes without raising: the reads return the fixed
fallback data (`FALLBACK_SOURCES`, the `FALLBACK_EVENTS` page slice, no
jobs), the writes are silent no-ops leaving the state untouched, the upsert
returns the placeholder fallback event, and `importFromMultipleSources`
still returns a coherent (jobId, results) pair whose jobId is the locally
generated synthetic identifier. -/
theorem eventService_db_fallback (st : DbSt) (hb : dbBroken st)
    (page limit jlimit : Nat) (f : EventFilters) (idS : String) (u : SourceUpdates)
    (d : NewEvent) (now : String) (sources : List String) (cb : Option ProgressCb)
    (runOne : String → Except String MultiSourceScrapingResult) (syntheticId : Int)
    (hcb : ∀ p, invokeCb cb p = Except.ok ()) :
    getCalendarSources now st = (FALLBACK_SOURCES, st) ∧
    getImportJobs jlimit st = ([], st) ∧
    getAllEvents page limit f now st
      = ((jsSlice FALLBACK_EVENTS ((page - 1) * limit) (page * limit),
          FALLBACK_EVENTS.length), st) ∧
    updateCalendarSource idS u now st = ((), st) ∧
    createOrUpdateEvent d now st = (fallbackEvent0, st) ∧
    importFromMultipleSources sources cb runOne syntheticId now st
      = (Except.ok (syntheticId, scrapeMultipleSources sources runOne), st) :=
  ⟨withDatabaseFallback_broken _ _ _ hb,
   withDatabaseFallback_broken _ _ _ hb,
   withDatabaseFallback_broken _ _ _ hb,
   withDatabaseFallback_broken _ _ _ hb,
   withDatabaseFallback_broken _ _ _ hb,
   importFromMultipleSources_broken sources cb runOne syntheticId now st hb hcb⟩

/-- C5 witness: the conjunction instantiated with the gateway absent. -/
theorem eventService_db_fallback_witness :
    getCalendarSources "2025-08-01T12:00:00.000Z" none = (FALLBACK_SOURCES, none) ∧
    importFromMultipleSources ["wayland-town"] none
      (fun s => Except.ok (stubResult s "u" "w" "t")) 7 "2025-08-01T12:00:00.000Z" none
      = (Except.ok (7, scrapeMultipleSources ["wayland-town"]
          (fun s => Except.ok (stubResult s "u" "w" "t"))), none) := by
  have h := eventService_db_fallback none trivial 1 50 10 {} "wayland-town" {}
    { title := "x", startDate := "2025-08-15T00:00:00.000Z"
      importedAt := "2025-08-01T12:00:00.000Z", updatedAt := "2025-08-01T12:00:00.000Z" }
    "2025-08-01T12:00:00.000Z" ["wayland-town"] none
    (fun s => Except.ok (stubResult s "u" "w" "t")) 7 (fun _ => rfl)
  exact ⟨h.1, h.2.2.2.2.2⟩

/-! ## C10 — a throwing progress callback aborts the import -/

/-- C10 (amended): an exception thrown by the progress callback is not
isolated — it escapes the try block, so `importFromMultipleSources` rethrows
it to the caller (no (jobId, results) value is returned), and with a live
healthy store the just-created ImportJob row is marked `failed` and given the
"Import failed: ..." error payload. -/
theorem importFromMultipleSources_callback_propagates
    (sources : List String)
    (runOne : String → Except String MultiSourceScrapingResult)
    (syntheticId : Int) (now msg : String) (cbFn : ProgressCb)
    (hcb : ∀ p, cbFn p = Except.error msg) :
    (∀ st, (importFromMultipleSources sources (some cbFn) runOne syntheticId now st).1
      = Except.error msg) ∧
    (∀ dbv : Db, dbv.healthy = true →
      ∃ dbv', (importFromMultipleSources sources (some cbFn) runOne syntheticId now
          (some dbv)).2 = some dbv' ∧
        ∃ jrow, dbv'.jobs.getLast? = some jrow ∧ jrow.status = "failed" ∧
          jrow.errors = some (jsonStrings ["Import failed: " ++ msg])) := by
  constructor
  · intro st
    simp only [importFromMultipleSources, invokeCb, hcb]
  · intro dbv hh
    have h1 : (importFromMultipleSources sources (some cbFn) runOne syntheticId now
        (some dbv)).2
        = some
          { dbv with jobs :=
              dbv.jobs.map (fun j : JobRow =>
                if j.id = nextJobId dbv then
                  { j with status := "failed", completedAt := some now
                           errors := some (jsonStrings ["Import failed: " ++ msg]) }
                else j) ++
              [{ id := nextJobId dbv, jobType := "multi-source"
                 sources := jsonStrings sources, status := "failed"
                 startedAt := some now, completedAt := some now, totalEvents := 0
                 successfulImports := 0
                 errors := some (jsonStrings ["Import failed: " ++ msg])
                 warnings := none, createdAt := now }] } := by
      simp only [importFromMultipleSources, withDatabaseFallback, opInsertJob,
        opUpdateJobFailed, invokeCb, hcb, hh]
      simp
    refine ⟨_, h1, ?_⟩
    refine ⟨{ id := nextJobId dbv, jobType := "multi-source"
              sources := jsonStrings sources, status := "failed"
              startedAt := some now, completedAt := some now, totalEvents := 0
              successfulImports := 0
              errors := some (jsonStrings ["Import failed: " ++ msg])
              warnings := none, createdAt := now }, ?_, rfl, rfl⟩
    exact List.getLast?_concat _

/-- C10 witness: a callback that always throws, on a healthy empty store. -/
theorem importFromMultipleSources_callback_propagates_witness :
    (importFromMultipleSources ["wayland-town"]
      (some (fun _ => Except.error "boom"))
      (fun s => Except.ok (stubResult s "u" "w" "t")) 42 "2025-08-01T00:00:00.000Z"
      (some ⟨[], [], [], true⟩)).1 = Except.error "boom" :=
  (importFromMultipleSources_callback_propagates ["wayland-town"]
    (fun s => Except.ok (stubResult s "u" "w" "t")) 42 "2025-08-01T00:00:00.000Z"
    "boom" (fun _ => Except.error "boom") (fun _ => rfl)).1
    (some ⟨[], [], [], true⟩)

/-! ## C8 — `normalizeEventUrl`: counterexample -/

/-- C8 counterexample: a bare `http://` URL passes through unchanged — the
claimed upgrade to `https://` does not happen in `normalizeEventUrl` (that
rewrite exists only in the inline wayland-town link handling). -/
theorem normalizeEventUrl_http_cex :
    normalizeEventUrl (some "http://www.wayland.ma.us/calendar/node/1")
      "https://www.wayland.ma.us"
      = some "http://www.wayland.ma.us/calendar/node/1" ∧
    normalizeEventUrl (some "http://www.wayland.ma.us/calendar/node/1")
      "https://www.wayland.ma.us"
      ≠ some "https://www.wayland.ma.us/calendar/node/1" := by decide
